import Mathlib

/-!
# Waveshare DSI panel driver (`drivers/miniarm/dsi/panel-waveshare-dsi.c`)

A shallow embedding of the panel driver: the lifecycle callbacks
(`waveshare_prepare`, `waveshare_enable`, `waveshare_disable`,
`waveshare_unprepare`), the bridge initialisation sequence
(`waveshare_dsi_init`), the teardown paths, mode discovery
(`waveshare_get_modes`) and the timing query (`waveshare_get_timings`).

The C functions mutate `struct waveshare` and call into the kernel
(regulator, GPIO, backlight, DSI host, DRM mode helpers).  Here every function
is a pure function on a `State` that holds the panel object, the connector it
is attached to, the ordered trace of calls made to the hardware collaborators
and the kernel log.  What the collaborators answer is read from an `Env`: the
n-th call of a fallible collaborator gets the n-th answer, so a theorem that
quantifies over `Env` covers every pattern of collaborator outcomes.

Counts (`num`, `num_modes`, `num_timings`) are natural numbers: the tables are
arrays in kernel memory, far below the range of `int`.
-/

namespace Waveshare

/-! ## Data model -/

/-- One field of `struct display_timing`: a `struct timing_entry`. -/
structure timing_entry where
  min : Nat
  typ : Nat
  max : Nat
  deriving DecidableEq, Repr

/-- A parametrised timing range, `struct display_timing`. -/
structure display_timing where
  pixelclock : timing_entry
  hactive : timing_entry
  hfront_porch : timing_entry
  hback_porch : timing_entry
  hsync_len : timing_entry
  vactive : timing_entry
  vfront_porch : timing_entry
  vback_porch : timing_entry
  vsync_len : timing_entry
  flags : Nat
  deriving DecidableEq, Repr

/-- A concrete timing, `struct videomode`. -/
structure videomode where
  pixelclock : Nat
  hactive : Nat
  hfront_porch : Nat
  hback_porch : Nat
  hsync_len : Nat
  vactive : Nat
  vfront_porch : Nat
  vback_porch : Nat
  vsync_len : Nat
  flags : Nat
  deriving DecidableEq, Repr

/-- The fields of `struct drm_display_mode` the driver reads or writes. -/
structure drm_display_mode where
  name : String
  type : Nat
  clock : Nat
  hdisplay : Nat
  hsync_start : Nat
  hsync_end : Nat
  htotal : Nat
  vdisplay : Nat
  vsync_start : Nat
  vsync_end : Nat
  vtotal : Nat
  vrefresh : Nat
  flags : Nat
  deriving DecidableEq, Repr

/-- The `delay` member of `struct panel_desc`, in milliseconds. -/
structure panel_delay where
  prepare : Nat
  enable : Nat
  disable : Nat
  unprepare : Nat
  deriving DecidableEq, Repr

/-- The `size` member of `struct panel_desc`, in millimetres. -/
structure panel_size where
  width : Nat
  height : Nat
  deriving DecidableEq, Repr

/-- The panel descriptor `struct panel_desc`.  The arrays `modes` and `timings`
are lists, `num_modes` and `num_timings` are their lengths. -/
structure panel_desc where
  modes : List drm_display_mode
  timings : List display_timing
  bpc : Nat
  size : panel_size
  delay : panel_delay
  bus_format : Nat
  deriving DecidableEq, Repr

/-- The `num_modes` member of `struct panel_desc`. -/
def panel_desc.num_modes (d : panel_desc) : Nat := d.modes.length

/-- The `num_timings` member of `struct panel_desc`. -/
def panel_desc.num_timings (d : panel_desc) : Nat := d.timings.length

/-- The part of `struct backlight_device` the driver writes: `props.power`. -/
structure backlight_device where
  props_power : Nat
  deriving DecidableEq, Repr

/-- The part of `struct drm_display_info` the driver writes. -/
structure drm_display_info where
  bpc : Nat
  width_mm : Nat
  height_mm : Nat
  bus_formats : List Nat
  deriving DecidableEq, Repr

/-- The connector the panel is attached to (the mode registry):
`probed_modes` in list order, the display info and the EDID property. -/
structure drm_connector where
  probed_modes : List drm_display_mode
  display_info : drm_display_info
  edid_property : Option (List drm_display_mode)
  deriving DecidableEq, Repr

/-- The panel object `struct waveshare`.  Optional handles (`backlight`, `ddc`,
`enable_gpio`) are present or absent; `supply` is always present after probe. -/
structure waveshare where
  prepared : Bool
  enabled : Bool
  desc : Option panel_desc
  backlight : Option backlight_device
  ddc : Bool
  enable_gpio : Bool
  deriving DecidableEq, Repr

/-- A call made to a hardware collaborator, with its arguments. -/
inductive Effect where
  | regulator_enable
  | regulator_disable
  | gpiod_direction_output (value : Nat)
  | msleep (msecs : Nat)
  | usleep_range (min max : Nat)
  | mipi_dsi_generic_write (data : List Nat) (len : Nat)
  | backlight_update_status (power : Nat)
  | drm_panel_detach
  | drm_panel_remove
  | put_device_ddc
  | put_device_backlight
  deriving DecidableEq, Repr

/-- A line of the kernel log: the call and its format string. -/
inductive LogLine where
  | printk (fmt : String)
  | dev_err (fmt : String) (args : List Int)
  | dev_dbg (fmt : String)
  deriving DecidableEq, Repr

/-- What the collaborators answer.  The n-th call of `regulator_enable`,
`mipi_dsi_generic_write` and of the mode allocator (`drm_mode_create`,
`drm_mode_duplicate`) gets the n-th answer.  `drm_get_edid` is the identification
block read over DDC, given by the modes the EDID parser makes of it;
`display_timings_node` says whether the device node has a `display-timings`
child and `of_get_videomode` is the native mode read from it, if it parses. -/
structure Env where
  regulator_enable : Nat → Int
  mipi_dsi_generic_write : Nat → Int
  mode_alloc : Nat → Bool
  drm_get_edid : Option (List drm_display_mode)
  display_timings_node : Bool
  of_get_videomode : Option videomode

/-- The panel, its connector, the trace of collaborator calls so far, the kernel
log and the number of calls made so far to each fallible collaborator. -/
structure State where
  p : waveshare
  connector : drm_connector
  trace : List Effect
  log : List LogLine
  n_regulator_enable : Nat
  n_write : Nat
  n_alloc : Nat
  deriving DecidableEq, Repr

/-- Append one collaborator call to the trace. -/
def State.emit (s : State) (e : Effect) : State :=
  { s with trace := s.trace ++ [e] }

/-- Append one line to the kernel log. -/
def State.logLine (s : State) (l : LogLine) : State :=
  { s with log := s.log ++ [l] }

/-- Modelled from the spec: the constant `FB_BLANK_UNBLANK` of `fb.h` (not under
src/), the backlight power value for "on". -/
def FB_BLANK_UNBLANK : Nat := 0

/-- Modelled from the spec: the constant `FB_BLANK_POWERDOWN` of `fb.h` (not
under src/), the backlight power value for "off". -/
def FB_BLANK_POWERDOWN : Nat := 4

/-- The statement `if (p->desc && p->desc->delay.X) msleep(p->desc->delay.X);`
for the delay field selected by `ms`. -/
def State.delay (s : State) (ms : panel_delay → Nat) : State :=
  match s.p.desc with
  | some d => if ms d.delay ≠ 0 then s.emit (Effect.msleep (ms d.delay)) else s
  | none => s

/-- The statement `if (p->backlight) { p->backlight->props.power = power;
backlight_update_status(p->backlight); }`. -/
def State.backlight_power (s : State) (power : Nat) : State :=
  match s.p.backlight with
  | some _ =>
    State.emit { s with p := { s.p with backlight := some { props_power := power } } }
      (Effect.backlight_update_status power)
  | none => s

/-- The statement `if (p->enable_gpio) gpiod_direction_output(p->enable_gpio,
value);`. -/
def State.gpio_output (s : State) (value : Nat) : State :=
  if s.p.enable_gpio then s.emit (Effect.gpiod_direction_output value) else s

/-! ## Lifecycle callbacks -/

/-- The callback `waveshare_disable`. -/
def waveshare_disable (s : State) : Int × State :=
  if !s.p.enabled then (0, s)
  else
    let s := s.logLine (LogLine.printk "panel disable\n")
    let s := s.backlight_power FB_BLANK_POWERDOWN
    let s := s.delay panel_delay.disable
    (0, { s with p := { s.p with enabled := false } })

/-- The callback `waveshare_unprepare`. -/
def waveshare_unprepare (s : State) : Int × State :=
  if !s.p.prepared then (0, s)
  else
    let s := s.gpio_output 0
    let s := s.emit Effect.regulator_disable
    let s := s.delay panel_delay.unprepare
    (0, { s with p := { s.p with prepared := false } })

/-- The helper `waveshare_gen_write`: one write on the command channel; a
negative result is logged and otherwise ignored. -/
def waveshare_gen_write (env : Env) (s : State) (data : List Nat) : State :=
  let ret := env.mipi_dsi_generic_write s.n_write
  let s := { s.emit (Effect.mipi_dsi_generic_write data data.length) with
             n_write := s.n_write + 1 }
  if ret < 0 then s.logLine (LogLine.dev_err "failed to writing gen seq\n" [])
  else s

/-- The function `waveshare_dsi_init`: sixteen `waveshare_gen_write_seq` calls,
then `usleep_range(10, 20)`, then `return 0`. -/
def waveshare_dsi_init (env : Env) (s : State) : Int × State :=
  let s := waveshare_gen_write env s [0x10, 0x02, 0x03, 0x00, 0x00, 0x00]
  let s := waveshare_gen_write env s [0x64, 0x01, 0x0c, 0x00, 0x00, 0x00]
  let s := waveshare_gen_write env s [0x68, 0x01, 0x0c, 0x00, 0x00, 0x00]
  let s := waveshare_gen_write env s [0x44, 0x01, 0x00, 0x00, 0x00, 0x00]
  let s := waveshare_gen_write env s [0x48, 0x01, 0x00, 0x00, 0x00, 0x00]
  let s := waveshare_gen_write env s [0x14, 0x01, 0x15, 0x00, 0x00, 0x00]
  let s := waveshare_gen_write env s [0x50, 0x04, 0x60, 0x00, 0x00, 0x00]
  let s := waveshare_gen_write env s [0x20, 0x04, 0x52, 0x01, 0x10, 0x00]
  let s := waveshare_gen_write env s [0x24, 0x04, 0x14, 0x00, 0x1a, 0x00]
  let s := waveshare_gen_write env s [0x28, 0x04, 0x20, 0x03, 0x69, 0x00]
  let s := waveshare_gen_write env s [0x2c, 0x04, 0x02, 0x00, 0x15, 0x00]
  let s := waveshare_gen_write env s [0x30, 0x04, 0xe0, 0x01, 0x07, 0x00]
  let s := waveshare_gen_write env s [0x34, 0x04, 0x01, 0x00, 0x00, 0x00]
  let s := waveshare_gen_write env s [0x64, 0x04, 0x0f, 0x04, 0x00, 0x00]
  let s := waveshare_gen_write env s [0x04, 0x01, 0x01, 0x00, 0x00, 0x00]
  let s := waveshare_gen_write env s [0x04, 0x02, 0x01, 0x00, 0x00, 0x00]
  let s := s.emit (Effect.usleep_range 10 20)
  (0, s)

/-- The callback `waveshare_prepare`. -/
def waveshare_prepare (env : Env) (s : State) : Int × State :=
  if s.p.prepared then (0, s)
  else
    let err := env.regulator_enable s.n_regulator_enable
    let s := { s.emit Effect.regulator_enable with
               n_regulator_enable := s.n_regulator_enable + 1 }
    if err < 0 then
      (err, s.logLine (LogLine.dev_err "failed to enable supply: %d\n" [err]))
    else
      let s := s.gpio_output 1
      let s := s.delay panel_delay.prepare
      (0, { s with p := { s.p with prepared := true } })

/-- The callback `waveshare_enable`.  The result of `waveshare_dsi_init` is
discarded. -/
def waveshare_enable (env : Env) (s : State) : Int × State :=
  if s.p.enabled then (0, s)
  else
    let s := s.logLine (LogLine.printk "panel enable\n")
    let s := (waveshare_dsi_init env s).2
    let s := s.delay panel_delay.enable
    let s := s.backlight_power FB_BLANK_UNBLANK
    (0, { s with p := { s.p with enabled := true } })

/-! ## Teardown -/

/-- The function `waveshare_remove`. -/
def waveshare_remove (s : State) : Int × State :=
  let s := s.emit Effect.drm_panel_detach
  let s := s.emit Effect.drm_panel_remove
  let s := (waveshare_disable s).2
  let s := if s.p.ddc then s.emit Effect.put_device_ddc else s
  let s := match s.p.backlight with
    | some _ => s.emit Effect.put_device_backlight
    | none => s
  (0, s)

/-- The function `waveshare_shutdown`. -/
def waveshare_shutdown (s : State) : State :=
  (waveshare_disable s).2

/-! ## Sequences of lifecycle calls -/

/-- The four lifecycle entry points of `waveshare_funcs`. -/
inductive Call where
  | prepare
  | enable
  | disable
  | unprepare
  deriving DecidableEq, Repr

/-- Dispatch one lifecycle call. -/
def step (env : Env) (s : State) : Call → Int × State
  | Call.prepare => waveshare_prepare env s
  | Call.enable => waveshare_enable env s
  | Call.disable => waveshare_disable s
  | Call.unprepare => waveshare_unprepare s

/-- Run a sequence of lifecycle calls, left to right, ignoring results. -/
def run (env : Env) (s : State) : List Call → State
  | [] => s
  | c :: cs => run env (step env s c).2 cs

/-- The lifecycle invariant of the data model: `enabled` implies `prepared`. -/
def invariant (s : State) : Prop := s.p.enabled = true → s.p.prepared = true

instance (s : State) : Decidable (invariant s) := by
  unfold invariant; infer_instance

/-- The precondition under which the caller respects the lifecycle order:
`enable` only on a prepared panel, `unprepare` only on a panel that is not
enabled. -/
def Call.inOrder (s : State) : Call → Bool
  | Call.enable => s.p.prepared
  | Call.unprepare => !s.p.enabled
  | _ => true

/-- Every call of the sequence is made in lifecycle order. -/
def ordered (env : Env) (s : State) : List Call → Bool
  | [] => true
  | c :: cs => c.inOrder s && ordered env (step env s c).2 cs

/-- The command writes of a trace, in order. -/
def writes (t : List Effect) : List (List Nat) :=
  t.filterMap fun e =>
    match e with
    | Effect.mipi_dsi_generic_write data _ => some data
    | _ => none

/-- The documented command table of the init sequence: sixteen entries of six
bytes each, in the order they are sent. -/
def init_table : List (List Nat) :=
  [[0x10, 0x02, 0x03, 0x00, 0x00, 0x00],
   [0x64, 0x01, 0x0c, 0x00, 0x00, 0x00],
   [0x68, 0x01, 0x0c, 0x00, 0x00, 0x00],
   [0x44, 0x01, 0x00, 0x00, 0x00, 0x00],
   [0x48, 0x01, 0x00, 0x00, 0x00, 0x00],
   [0x14, 0x01, 0x15, 0x00, 0x00, 0x00],
   [0x50, 0x04, 0x60, 0x00, 0x00, 0x00],
   [0x20, 0x04, 0x52, 0x01, 0x10, 0x00],
   [0x24, 0x04, 0x14, 0x00, 0x1a, 0x00],
   [0x28, 0x04, 0x20, 0x03, 0x69, 0x00],
   [0x2c, 0x04, 0x02, 0x00, 0x15, 0x00],
   [0x30, 0x04, 0xe0, 0x01, 0x07, 0x00],
   [0x34, 0x04, 0x01, 0x00, 0x00, 0x00],
   [0x64, 0x04, 0x0f, 0x04, 0x00, 0x00],
   [0x04, 0x01, 0x01, 0x00, 0x00, 0x00],
   [0x04, 0x02, 0x01, 0x00, 0x00, 0x00]]

/-- The trace of one run of the init sequence as documented: the sixteen writes
of `init_table`, six bytes each, then the settle wait. -/
def init_effects : List Effect :=
  (init_table.map fun d => Effect.mipi_dsi_generic_write d 6) ++ [Effect.usleep_range 10 20]

/-- The documented delay of a transition: one sleep of the configured number of
milliseconds when a descriptor is attached and the value is not zero. -/
def delay_effects (desc : Option panel_desc) (ms : panel_delay → Nat) : List Effect :=
  match desc with
  | some d => if ms d.delay ≠ 0 then [Effect.msleep (ms d.delay)] else []
  | none => []

/-- The documented backlight update of a transition: one update to the given
power value when a backlight is attached. -/
def backlight_effects (bl : Option backlight_device) (power : Nat) : List Effect :=
  match bl with
  | some _ => [Effect.backlight_update_status power]
  | none => []

/-- The documented enable-signal update of a transition: one write of the given
level when an enable GPIO is present. -/
def gpio_effects (enable_gpio : Bool) (value : Nat) : List Effect :=
  if enable_gpio then [Effect.gpiod_direction_output value] else []

/-- The collaborator calls made between state `s` and a later state `t`. -/
def since (s t : State) : List Effect := t.trace.drop s.trace.length

/-- An environment in which every collaborator succeeds and there is neither
EDID nor a native-mode node. -/
def env_ok : Env :=
  { regulator_enable := fun _ => 0
    mipi_dsi_generic_write := fun _ => 0
    mode_alloc := fun _ => true
    drm_get_edid := none
    display_timings_node := false
    of_get_videomode := none }

/-- An environment in which the seventh command write is rejected (`-EIO`) and
everything else succeeds. -/
def env_fail7 : Env :=
  { env_ok with mipi_dsi_generic_write := fun n => if n = 6 then -5 else 0 }

/-- An environment in which the supply cannot be enabled (`-ENODEV`). -/
def env_nosupply : Env :=
  { env_ok with regulator_enable := fun _ => -19 }

/-- An empty connector. -/
def connector0 : drm_connector :=
  { probed_modes := [], display_info := ⟨0, 0, 0, []⟩, edid_property := none }

/-- The state right after `waveshare_mipi_probe`: `prepared` and `enabled` are
false, nothing has been called yet. -/
def fresh (desc : Option panel_desc) (backlight : Option backlight_device)
    (ddc enable_gpio : Bool) : State :=
  { p := { prepared := false, enabled := false, desc := desc, backlight := backlight,
           ddc := ddc, enable_gpio := enable_gpio }
    connector := connector0
    trace := [], log := [], n_regulator_enable := 0, n_write := 0, n_alloc := 0 }

/-! ## Mode discovery -/

/-- Modelled from the spec: the constant `DRM_MODE_TYPE_PREFERRED` of
`drm_mode.h` (not under src/), the bit of `type` that is the preferred marker
of a display mode. -/
def DRM_MODE_TYPE_PREFERRED : Nat := 8

/-- Modelled from the spec: the constant `DRM_MODE_FLAG_NHSYNC` of `drm_mode.h`
(not under src/), a polarity flag of a display mode. -/
def DRM_MODE_FLAG_NHSYNC : Nat := 2

/-- Modelled from the spec: the constant `DRM_MODE_FLAG_NVSYNC` of `drm_mode.h`
(not under src/), a polarity flag of a display mode. -/
def DRM_MODE_FLAG_NVSYNC : Nat := 8

/-- The preferred marker of a mode: `type & DRM_MODE_TYPE_PREFERRED`. -/
def drm_display_mode.preferred (m : drm_display_mode) : Bool :=
  (m.type &&& DRM_MODE_TYPE_PREFERRED) != 0

/-- Modelled from the spec: `videomode_from_timing` (video/videomode.c, not under
src/) reduces every range of a display timing to its typical value. -/
def videomode_from_timing (dt : display_timing) : videomode :=
  { pixelclock := dt.pixelclock.typ
    hactive := dt.hactive.typ
    hfront_porch := dt.hfront_porch.typ
    hback_porch := dt.hback_porch.typ
    hsync_len := dt.hsync_len.typ
    vactive := dt.vactive.typ
    vfront_porch := dt.vfront_porch.typ
    vback_porch := dt.vback_porch.typ
    vsync_len := dt.vsync_len.typ
    flags := dt.flags }

/-- The translations done inside the DRM helpers that the spec leaves open: the
name `drm_mode_set_name` gives a mode and the mode flags
`drm_display_mode_from_videomode` derives from the display flags. -/
structure ModeHelpers where
  mode_name : drm_display_mode → String
  mode_flags : Nat → Nat

/-- Modelled from the spec: `drm_display_mode_from_videomode` (drm_modes.c, not
under src/) converts a concrete timing one to one into a display mode: active
size, sync start and end offsets, totals, clock in kHz and the flags. -/
def drm_display_mode_from_videomode (h : ModeHelpers) (vm : videomode)
    (dmode : drm_display_mode) : drm_display_mode :=
  { dmode with
    hdisplay := vm.hactive
    hsync_start := vm.hactive + vm.hfront_porch
    hsync_end := vm.hactive + vm.hfront_porch + vm.hsync_len
    htotal := vm.hactive + vm.hfront_porch + vm.hsync_len + vm.hback_porch
    vdisplay := vm.vactive
    vsync_start := vm.vactive + vm.vfront_porch
    vsync_end := vm.vactive + vm.vfront_porch + vm.vsync_len
    vtotal := vm.vactive + vm.vfront_porch + vm.vsync_len + vm.vback_porch
    clock := vm.pixelclock / 1000
    flags := h.mode_flags vm.flags }

/-- Modelled from the spec: `drm_mode_set_name` (drm_modes.c, not under src/)
fills in the name of a mode and nothing else. -/
def drm_mode_set_name (h : ModeHelpers) (m : drm_display_mode) : drm_display_mode :=
  { m with name := h.mode_name m }

/-- The zeroed mode a successful `drm_mode_create` returns. -/
def mode_zero : drm_display_mode :=
  { name := "", type := 0, clock := 0, hdisplay := 0, hsync_start := 0, hsync_end := 0,
    htotal := 0, vdisplay := 0, vsync_start := 0, vsync_end := 0, vtotal := 0,
    vrefresh := 0, flags := 0 }

/-- Modelled from the spec: `drm_mode_create` (drm_modes.c, not under src/)
allocates a zeroed mode, or fails. -/
def drm_mode_create (env : Env) (s : State) : Option drm_display_mode × State :=
  let ok := env.mode_alloc s.n_alloc
  let s := { s with n_alloc := s.n_alloc + 1 }
  if ok then (some mode_zero, s) else (none, s)

/-- Modelled from the spec: `drm_mode_duplicate` (drm_modes.c, not under src/)
allocates a mode and copies the given one into it, or fails. -/
def drm_mode_duplicate (env : Env) (s : State) (m : drm_display_mode) :
    Option drm_display_mode × State :=
  match drm_mode_create env s with
  | (some _, s) => (some m, s)
  | (none, s) => (none, s)

/-- Modelled from the spec: `drm_mode_probed_add` (drm_modes.c, not under src/)
appends a mode to the tail of the connector's probed list. -/
def drm_mode_probed_add (s : State) (mode : drm_display_mode) : State :=
  { s with connector := { s.connector with
      probed_modes := s.connector.probed_modes ++ [mode] } }

/-- Modelled from the spec: `drm_display_info_set_bus_formats` (drm_crtc.c, not
under src/) replaces the bus format list of the display info. -/
def drm_display_info_set_bus_formats (info : drm_display_info) (formats : List Nat) :
    drm_display_info :=
  { info with bus_formats := formats }

/-- The first loop of `waveshare_get_fixed_modes`, over `desc->timings`. -/
def fixed_timings_loop (env : Env) (h : ModeHelpers) :
    List display_timing → State → Nat → State × Nat
  | [], s, num => (s, num)
  | dt :: rest, s, num =>
    let vm := videomode_from_timing dt
    match drm_mode_create env s with
    | (none, s) =>
      fixed_timings_loop env h rest
        (s.logLine (LogLine.dev_err "failed to add mode %ux%u\n"
          [(dt.hactive.typ : Int), (dt.vactive.typ : Int)])) num
    | (some mode, s) =>
      let mode := drm_display_mode_from_videomode h vm mode
      let mode := drm_mode_set_name h mode
      fixed_timings_loop env h rest (drm_mode_probed_add s mode) (num + 1)

/-- The second loop of `waveshare_get_fixed_modes`, over `desc->modes`. -/
def fixed_modes_loop (env : Env) (h : ModeHelpers) :
    List drm_display_mode → State → Nat → State × Nat
  | [], s, num => (s, num)
  | m :: rest, s, num =>
    match drm_mode_duplicate env s m with
    | (none, s) =>
      fixed_modes_loop env h rest
        (s.logLine (LogLine.dev_err "failed to add mode %ux%u@%u\n"
          [(m.hdisplay : Int), (m.vdisplay : Int), (m.vrefresh : Int)])) num
    | (some mode, s) =>
      let mode := drm_mode_set_name h mode
      fixed_modes_loop env h rest (drm_mode_probed_add s mode) (num + 1)

/-- The function `waveshare_get_fixed_modes`. -/
def waveshare_get_fixed_modes (env : Env) (h : ModeHelpers) (s : State) : Int × State :=
  match s.p.desc with
  | none => (0, s)
  | some desc =>
    let (s, num) := fixed_timings_loop env h desc.timings s 0
    let (s, num) := fixed_modes_loop env h desc.modes s num
    let info := { s.connector.display_info with
                  bpc := desc.bpc, width_mm := desc.size.width, height_mm := desc.size.height }
    let info := if desc.bus_format ≠ 0 then
        drm_display_info_set_bus_formats info [desc.bus_format]
      else info
    ((num : Int), { s with connector := { s.connector with display_info := info } })

/-- The function `waveshare_of_get_native_mode`.  The device-tree helper
`of_get_drm_display_mode` reads a video mode and converts it with
`drm_display_mode_from_videomode`, or fails. -/
def waveshare_of_get_native_mode (env : Env) (h : ModeHelpers) (s : State) : Int × State :=
  if !env.display_timings_node then
    (0, s.logLine (LogLine.dev_dbg "failed to find display-timings node\n"))
  else
    match drm_mode_create env s with
    | (none, s) => (0, s)
    | (some mode, s) =>
      match env.of_get_videomode with
      | none => (0, s.logLine (LogLine.dev_dbg "failed to find dts display timings\n"))
      | some vm =>
        let mode := drm_display_mode_from_videomode h vm mode
        let mode := drm_mode_set_name h mode
        let mode := { mode with type := mode.type ||| DRM_MODE_TYPE_PREFERRED }
        (1, drm_mode_probed_add s mode)

/-- Modelled from the spec: `drm_add_edid_modes` (drm_edid.c, not under src/)
adds the modes parsed from the identification block to the connector and
returns how many it added. -/
def drm_add_edid_modes (s : State) (edid : List drm_display_mode) : Int × State :=
  ((edid.length : Int),
   { s with connector := { s.connector with
       probed_modes := s.connector.probed_modes ++ edid } })

/-- The callback `waveshare_get_modes`. -/
def waveshare_get_modes (env : Env) (h : ModeHelpers) (s : State) : Int × State :=
  let num : Int := 0
  let (num, s) :=
    if s.p.ddc then
      let edid := env.drm_get_edid
      let s := { s with connector := { s.connector with edid_property := edid } }
      match edid with
      | some e =>
        let r := drm_add_edid_modes s e
        (num + r.1, r.2)
      | none => (num, s)
    else (num, s)
  let r := waveshare_get_fixed_modes env h s
  let num := num + r.1
  let r := waveshare_of_get_native_mode env h r.2
  (num + r.1, r.2)

/-- The compiled-in mode `waveshare_mode`. -/
def waveshare_mode : drm_display_mode :=
  { name := ""
    type := 0
    clock := 27448
    hdisplay := 800
    hsync_start := 800 + 70
    hsync_end := 800 + 70 + 20
    htotal := 800 + 70 + 20 + 26
    vdisplay := 480
    vsync_start := 480 + 7
    vsync_end := 480 + 7 + 2
    vtotal := 480 + 7 + 2 + 21
    vrefresh := 60
    flags := DRM_MODE_FLAG_NVSYNC ||| DRM_MODE_FLAG_NHSYNC }

/-- The `desc` member of the compiled-in `waveshare_bridge`. -/
def waveshare_bridge_desc : panel_desc :=
  { modes := [waveshare_mode]
    timings := []
    bpc := 8
    size := { width := 217, height := 136 }
    delay := { prepare := 0, enable := 0, disable := 0, unprepare := 0 }
    bus_format := 0 }

/-- Helpers that name a mode by its active size and keep the flags. -/
def helpers0 : ModeHelpers :=
  { mode_name := fun m => toString m.hdisplay ++ "x" ++ toString m.vdisplay
    mode_flags := fun f => f }

/-- The compiled-in panel right after probe, with an enable GPIO and a
backlight and no DDC bus. -/
def panel0 : State := fresh (some waveshare_bridge_desc) (some { props_power := 0 }) false true

/-- The panel `panel0` after a successful `prepare`. -/
def panel0_prepared : State := run env_ok panel0 [Call.prepare]

/-- The panel `panel0` after a successful `prepare` and `enable`. -/
def panel0_enabled : State := run env_ok panel0 [Call.prepare, Call.enable]

/-- The mode the fixed source makes of a descriptor timing: the typical values,
converted into a zeroed mode and named. -/
def timing_mode (h : ModeHelpers) (dt : display_timing) : drm_display_mode :=
  drm_mode_set_name h (drm_display_mode_from_videomode h (videomode_from_timing dt) mode_zero)

/-- The mode the fixed source makes of a descriptor mode: a copy, named. -/
def fixed_mode (h : ModeHelpers) (m : drm_display_mode) : drm_display_mode :=
  drm_mode_set_name h m

/-- The modes a call added to the registry: the probed list of `t` without the
entries already in `s`. -/
def added (s t : State) : List drm_display_mode :=
  t.connector.probed_modes.drop s.connector.probed_modes.length

/-! ## Definitions for the mode-discovery and timing claims -/

/-- The mode the native source adds for a video mode read from the device
description: converted into a zeroed mode, named, and marked preferred. -/
def native_mode (h : ModeHelpers) (vm : videomode) : drm_display_mode :=
  { drm_mode_set_name h (drm_display_mode_from_videomode h vm mode_zero) with
    type := (drm_mode_set_name h (drm_display_mode_from_videomode h vm mode_zero)).type
      ||| DRM_MODE_TYPE_PREFERRED }

/-- The number of descriptor entries (timings, then modes) the fixed source goes
through, each of which asks the allocator for one mode. -/
def fixed_entries (s : State) : Nat :=
  match s.p.desc with
  | some d => d.num_timings + d.num_modes
  | none => 0

/-- The modes made of the entries `l` whose allocation succeeds, when the first
entry gets the allocator's answer number `n0`: an entry whose allocation
fails is left out and the entries after it are still looked at. -/
def created {α : Type} (env : Env) (f : α → drm_display_mode) : Nat → List α →
    List drm_display_mode
  | _, [] => []
  | n0, x :: xs =>
    (if env.mode_alloc n0 then [f x] else []) ++ created env f (n0 + 1) xs

/-- The modes the probed source contributes: those of the identification block,
when there is a DDC handle and a block was read. -/
def edid_part (env : Env) (s : State) : List drm_display_mode :=
  if s.p.ddc then
    match env.drm_get_edid with
    | some e => e
    | none => []
  else []

/-- The modes the fixed source contributes: one per descriptor timing and
descriptor mode whose allocation succeeds, timings first. -/
def fixed_part (env : Env) (h : ModeHelpers) (s : State) : List drm_display_mode :=
  match s.p.desc with
  | some d =>
    created env (timing_mode h) s.n_alloc d.timings
      ++ created env (fixed_mode h) (s.n_alloc + d.num_timings) d.modes
  | none => []

/-- The mode the native source contributes: one, when the device node has a
`display-timings` child, the allocation succeeds and the native mode parses. -/
def native_part (env : Env) (h : ModeHelpers) (s : State) : List drm_display_mode :=
  if env.display_timings_node && env.mode_alloc (s.n_alloc + fixed_entries s) then
    match env.of_get_videomode with
    | some vm => [native_mode h vm]
    | none => []
  else []

/-- The millisecond sleeps of a trace, in order. -/
def sleeps (t : List Effect) : List Nat :=
  t.filterMap fun e =>
    match e with
    | Effect.msleep ms => some ms
    | _ => none

/-- The backlight updates of a trace, in order. -/
def backlight_updates (t : List Effect) : List Nat :=
  t.filterMap fun e =>
    match e with
    | Effect.backlight_update_status power => some power
    | _ => none

/-- The configured delay of a transition as the data model describes it: the
value of the selected field when a descriptor is attached and the value is
not zero. -/
def configured_delay (desc : Option panel_desc) (ms : panel_delay → Nat) : List Nat :=
  match desc with
  | some d => if ms d.delay ≠ 0 then [ms d.delay] else []
  | none => []

/-- A little-endian 16-bit word made of two bytes. -/
def le16 (lo hi : Nat) : Nat := lo + 256 * hi

/-- The low word of the payload of a six-byte command: payload bytes 0 and 1. -/
def payload_lo (d : List Nat) : Nat := le16 (d.getD 2 0) (d.getD 3 0)

/-- The high word of the payload of a six-byte command: payload bytes 2 and 3. -/
def payload_hi (d : List Nat) : Nat := le16 (d.getD 4 0) (d.getD 5 0)

/-- The first command of a list of writes that addresses the register given by
its first two bytes. -/
def find_reg (w : List (List Nat)) (r0 r1 : Nat) : Option (List Nat) :=
  w.find? fun d => d.take 2 == [r0, r1]

/-- The loop `for (i = 0; i < num_timings; i++) timings[i] = p->desc->timings[i];`
with `k` iterations left at index `i`.  The result is the buffer and the
descriptor indices read so far; `none` stands for an access outside the
descriptor array or outside the buffer. -/
def get_timings_loop (src : List display_timing) :
    Nat → Nat → List display_timing × List Nat → Option (List display_timing × List Nat)
  | 0, _, acc => some acc
  | k + 1, i, (buf, reads) =>
    match src[i]? with
    | some t =>
      if i < buf.length then
        get_timings_loop src k (i + 1) (buf.set i t, reads ++ [i])
      else none
    | none => none

/-- The callback `waveshare_get_timings`.  The buffer `timings` is `none` for a
null pointer.  The result is the return value, the buffer after the call and
the descriptor indices that were read. -/
def waveshare_get_timings (s : State) (num_timings : Nat)
    (timings : Option (List display_timing)) :
    Option (Int × Option (List display_timing) × List Nat) :=
  match s.p.desc with
  | none => some (0, timings, [])
  | some desc =>
    let num_timings := if desc.num_timings < num_timings then desc.num_timings else num_timings
    match timings with
    | some buf =>
      match get_timings_loop desc.timings num_timings 0 (buf, []) with
      | some (buf, reads) => some ((desc.num_timings : Int), some buf, reads)
      | none => none
    | none => some ((desc.num_timings : Int), none, [])

/-- A display timing with the same value for minimum, typical and maximum. -/
def timing_of (clock ha hfp hbp hs va vfp vbp vs : Nat) : display_timing :=
  { pixelclock := ⟨clock, clock, clock⟩
    hactive := ⟨ha, ha, ha⟩
    hfront_porch := ⟨hfp, hfp, hfp⟩
    hback_porch := ⟨hbp, hbp, hbp⟩
    hsync_len := ⟨hs, hs, hs⟩
    vactive := ⟨va, va, va⟩
    vfront_porch := ⟨vfp, vfp, vfp⟩
    vback_porch := ⟨vbp, vbp, vbp⟩
    vsync_len := ⟨vs, vs, vs⟩
    flags := 0 }

/-- A descriptor with two timings, one mode, all four delays and a bus format,
as a device description may supply. -/
def desc1 : panel_desc :=
  { modes := [waveshare_mode]
    timings := [timing_of 27448000 800 70 26 20 480 7 21 2,
                timing_of 25175000 640 16 48 96 480 10 33 2]
    bpc := 6
    size := { width := 95, height := 54 }
    delay := { prepare := 10, enable := 20, disable := 30, unprepare := 40 }
    bus_format := 0x1009 }

/-- A panel with the descriptor `desc1`, a backlight, a DDC bus and an enable
GPIO, right after probe. -/
def panel1 : State := fresh (some desc1) (some { props_power := 0 }) true true

/-- The panel `panel1` after a successful `prepare`. -/
def panel1_prepared : State := run env_ok panel1 [Call.prepare]

/-- The panel `panel1` after a successful `prepare` and `enable`. -/
def panel1_enabled : State := run env_ok panel1 [Call.prepare, Call.enable]

/-- An environment with an identification block of one mode, a native mode in
the device description, and an allocator whose second answer is a failure. -/
def env_native : Env :=
  { env_ok with
    mode_alloc := fun n => n != 1
    drm_get_edid := some [waveshare_mode]
    display_timings_node := true
    of_get_videomode := some (videomode_from_timing
      (timing_of 27448000 800 70 26 20 480 7 21 2)) }

/-! ## Frame lemmas for the command channel -/

section frame
variable (env : Env) (s : State) (d : List Nat)

@[simp] theorem gen_write_p : (waveshare_gen_write env s d).p = s.p := by
  simp only [waveshare_gen_write]; split <;> rfl

@[simp] theorem gen_write_trace :
    (waveshare_gen_write env s d).trace
      = s.trace ++ [Effect.mipi_dsi_generic_write d d.length] := by
  simp only [waveshare_gen_write]; split <;> rfl

@[simp] theorem gen_write_n_write :
    (waveshare_gen_write env s d).n_write = s.n_write + 1 := by
  simp only [waveshare_gen_write]; split <;> rfl

@[simp] theorem gen_write_connector :
    (waveshare_gen_write env s d).connector = s.connector := by
  simp only [waveshare_gen_write]; split <;> rfl

@[simp] theorem gen_write_n_regulator_enable :
    (waveshare_gen_write env s d).n_regulator_enable = s.n_regulator_enable := by
  simp only [waveshare_gen_write]; split <;> rfl

@[simp] theorem dsi_init_ret : (waveshare_dsi_init env s).1 = 0 := rfl

@[simp] theorem dsi_init_p : (waveshare_dsi_init env s).2.p = s.p := by
  simp [waveshare_dsi_init, State.emit]

@[simp] theorem dsi_init_connector :
    (waveshare_dsi_init env s).2.connector = s.connector := by
  simp [waveshare_dsi_init, State.emit]

@[simp] theorem dsi_init_n_regulator_enable :
    (waveshare_dsi_init env s).2.n_regulator_enable = s.n_regulator_enable := by
  simp [waveshare_dsi_init, State.emit]

@[simp] theorem dsi_init_n_write :
    (waveshare_dsi_init env s).2.n_write = s.n_write + 16 := by
  simp [waveshare_dsi_init, State.emit]

theorem dsi_init_trace :
    (waveshare_dsi_init env s).2.trace = s.trace ++ init_effects := by
  simp [waveshare_dsi_init, State.emit, init_effects, init_table]

theorem since_eq {s t : State} {l : List Effect} (h : t.trace = s.trace ++ l) :
    since s t = l := by
  simp [since, h]

theorem writes_append (a b : List Effect) : writes (a ++ b) = writes a ++ writes b := by
  simp [writes, List.filterMap_append]

theorem writes_init_effects : writes init_effects = init_table := by
  decide

theorem writes_delay_effects (desc : Option panel_desc) (ms : panel_delay → Nat) :
    writes (delay_effects desc ms) = [] := by
  unfold delay_effects
  split
  · split <;> rfl
  · rfl

theorem writes_backlight_effects (bl : Option backlight_device) (power : Nat) :
    writes (backlight_effects bl power) = [] := by
  cases bl <;> rfl

end frame

/-! ## Frame lemmas for the lifecycle callbacks -/

section helpers
variable (s : State) (ms : panel_delay → Nat) (v : Nat)

@[simp] theorem delay_p : (s.delay ms).p = s.p := by
  unfold State.delay; split
  · split <;> rfl
  · rfl

@[simp] theorem delay_trace : (s.delay ms).trace = s.trace ++ delay_effects s.p.desc ms := by
  unfold State.delay delay_effects; split
  · split <;> simp [State.emit]
  · simp

@[simp] theorem delay_log : (s.delay ms).log = s.log := by
  unfold State.delay; split
  · split <;> rfl
  · rfl

@[simp] theorem delay_connector : (s.delay ms).connector = s.connector := by
  unfold State.delay; split
  · split <;> rfl
  · rfl

@[simp] theorem delay_n_regulator_enable :
    (s.delay ms).n_regulator_enable = s.n_regulator_enable := by
  unfold State.delay; split
  · split <;> rfl
  · rfl

@[simp] theorem gpio_output_p : (s.gpio_output v).p = s.p := by
  unfold State.gpio_output; split <;> rfl

@[simp] theorem gpio_output_trace :
    (s.gpio_output v).trace = s.trace ++ gpio_effects s.p.enable_gpio v := by
  unfold State.gpio_output gpio_effects; split <;> simp [State.emit]

@[simp] theorem gpio_output_log : (s.gpio_output v).log = s.log := by
  unfold State.gpio_output; split <;> rfl

@[simp] theorem gpio_output_connector : (s.gpio_output v).connector = s.connector := by
  unfold State.gpio_output; split <;> rfl

@[simp] theorem gpio_output_n_regulator_enable :
    (s.gpio_output v).n_regulator_enable = s.n_regulator_enable := by
  unfold State.gpio_output; split <;> rfl

@[simp] theorem backlight_power_prepared :
    (s.backlight_power v).p.prepared = s.p.prepared := by
  unfold State.backlight_power; split <;> rfl

@[simp] theorem backlight_power_enabled :
    (s.backlight_power v).p.enabled = s.p.enabled := by
  unfold State.backlight_power; split <;> rfl

@[simp] theorem backlight_power_desc : (s.backlight_power v).p.desc = s.p.desc := by
  unfold State.backlight_power; split <;> rfl

@[simp] theorem backlight_power_ddc : (s.backlight_power v).p.ddc = s.p.ddc := by
  unfold State.backlight_power; split <;> rfl

@[simp] theorem backlight_power_enable_gpio :
    (s.backlight_power v).p.enable_gpio = s.p.enable_gpio := by
  unfold State.backlight_power; split <;> rfl

@[simp] theorem backlight_power_backlight :
    (s.backlight_power v).p.backlight
      = s.p.backlight.map fun _ => { props_power := v } := by
  unfold State.backlight_power; split <;> simp [State.emit, *]

@[simp] theorem backlight_power_trace :
    (s.backlight_power v).trace = s.trace ++ backlight_effects s.p.backlight v := by
  unfold State.backlight_power backlight_effects; split <;> simp [State.emit]

@[simp] theorem backlight_power_log : (s.backlight_power v).log = s.log := by
  unfold State.backlight_power; split <;> rfl

@[simp] theorem backlight_power_connector :
    (s.backlight_power v).connector = s.connector := by
  unfold State.backlight_power; split <;> rfl

@[simp] theorem backlight_power_n_regulator_enable :
    (s.backlight_power v).n_regulator_enable = s.n_regulator_enable := by
  unfold State.backlight_power; split <;> rfl

theorem writes_gpio_effects (g : Bool) : writes (gpio_effects g v) = [] := by
  cases g <;> rfl

end helpers

section lifecycle
variable (env : Env) (s : State)

theorem enable_ret : (waveshare_enable env s).1 = 0 := by
  unfold waveshare_enable; split <;> rfl

theorem enable_prepared : (waveshare_enable env s).2.p.prepared = s.p.prepared := by
  unfold waveshare_enable
  split
  · rfl
  · simp [State.logLine]

theorem enable_enabled : (waveshare_enable env s).2.p.enabled = true := by
  unfold waveshare_enable
  split
  · assumption
  · rfl

theorem enable_trace (h : s.p.enabled = false) :
    (waveshare_enable env s).2.trace
      = s.trace ++ (init_effects ++ delay_effects s.p.desc panel_delay.enable
          ++ backlight_effects s.p.backlight FB_BLANK_UNBLANK) := by
  unfold waveshare_enable
  simp [h, dsi_init_trace, State.logLine]

theorem disable_ret : (waveshare_disable s).1 = 0 := by
  unfold waveshare_disable; split <;> rfl

theorem disable_prepared : (waveshare_disable s).2.p.prepared = s.p.prepared := by
  unfold waveshare_disable
  split
  · rfl
  · simp [State.logLine]

theorem disable_enabled : (waveshare_disable s).2.p.enabled = false := by
  unfold waveshare_disable
  split
  · simp_all
  · rfl

theorem disable_trace (h : s.p.enabled = true) :
    (waveshare_disable s).2.trace
      = s.trace ++ (backlight_effects s.p.backlight FB_BLANK_POWERDOWN
          ++ delay_effects s.p.desc panel_delay.disable) := by
  unfold waveshare_disable
  simp [h, State.logLine]

theorem unprepare_ret : (waveshare_unprepare s).1 = 0 := by
  unfold waveshare_unprepare; split <;> rfl

theorem unprepare_enabled : (waveshare_unprepare s).2.p.enabled = s.p.enabled := by
  unfold waveshare_unprepare
  split
  · rfl
  · simp [State.emit]

theorem unprepare_prepared : (waveshare_unprepare s).2.p.prepared = false := by
  unfold waveshare_unprepare
  split
  · simp_all
  · rfl

theorem unprepare_trace (h : s.p.prepared = true) :
    (waveshare_unprepare s).2.trace
      = s.trace ++ (gpio_effects s.p.enable_gpio 0 ++ [Effect.regulator_disable]
          ++ delay_effects s.p.desc panel_delay.unprepare) := by
  unfold waveshare_unprepare
  simp [h, State.emit]

theorem prepare_enabled : (waveshare_prepare env s).2.p.enabled = s.p.enabled := by
  unfold waveshare_prepare
  split
  · rfl
  · simp only []
    split <;> simp [State.emit, State.logLine]

theorem prepare_prepared_of_prepared (h : (waveshare_prepare env s).2.p.prepared = false) :
    s.p.prepared = false := by
  unfold waveshare_prepare at h
  split at h
  · simp_all
  · simp_all

theorem prepare_trace_ok (h : s.p.prepared = false)
    (hok : ¬ env.regulator_enable s.n_regulator_enable < 0) :
    (waveshare_prepare env s).2.trace
      = s.trace ++ ([Effect.regulator_enable] ++ gpio_effects s.p.enable_gpio 1
          ++ delay_effects s.p.desc panel_delay.prepare) := by
  unfold waveshare_prepare
  simp [h, hok, State.emit]

theorem prepare_fail (h : s.p.prepared = false)
    (herr : env.regulator_enable s.n_regulator_enable < 0) :
    (waveshare_prepare env s).1 = env.regulator_enable s.n_regulator_enable
      ∧ (waveshare_prepare env s).2.p = s.p
      ∧ (waveshare_prepare env s).2.trace = s.trace ++ [Effect.regulator_enable]
      ∧ (waveshare_prepare env s).2.connector = s.connector
      ∧ (waveshare_prepare env s).2.log
          = s.log ++ [LogLine.dev_err "failed to enable supply: %d\n"
              [env.regulator_enable s.n_regulator_enable]] := by
  unfold waveshare_prepare
  simp [h, herr, State.emit, State.logLine]

theorem prepare_ok (h : s.p.prepared = false)
    (hok : ¬ env.regulator_enable s.n_regulator_enable < 0) :
    (waveshare_prepare env s).1 = 0 ∧ (waveshare_prepare env s).2.p.prepared = true := by
  unfold waveshare_prepare
  simp [h, hok]

theorem count_delay_effects (desc : Option panel_desc) (ms : panel_delay → Nat) (e : Effect)
    (he : ∀ n, e ≠ Effect.msleep n) : (delay_effects desc ms).count e = 0 := by
  unfold delay_effects
  split
  · split
    · simp [List.count_singleton, (he _).symm]
    · rfl
  · rfl

theorem step_invariant (c : Call) (hi : invariant s) (ho : c.inOrder s = true) :
    invariant (step env s c).2 := by
  unfold invariant at *
  cases c
  · intro h
    simp only [step] at h ⊢
    rw [prepare_enabled] at h
    have hp := hi h
    by_contra hc
    have := prepare_prepared_of_prepared env s (by simpa using hc)
    simp_all
  · intro _
    simp only [step]
    rw [enable_prepared]
    simpa [Call.inOrder] using ho
  · intro h
    simp only [step] at h
    rw [disable_enabled] at h
    cases h
  · intro h
    simp only [step] at h
    rw [unprepare_enabled] at h
    simp [Call.inOrder, h] at ho

theorem run_invariant (cs : List Call) :
    ∀ s : State, invariant s → ordered env s cs = true →
      ∀ k, invariant (run env s (cs.take k)) := by
  induction cs with
  | nil => intro s hi _ k; simpa [run] using hi
  | cons c cs ih =>
    intro s hi ho k
    simp only [ordered, Bool.and_eq_true] at ho
    cases k with
    | zero => simpa [run] using hi
    | succ k =>
      simp only [List.take_succ_cons, run]
      exact ih _ (step_invariant env s c hi ho.1) ho.2 k

theorem since_trans {s t u : State} {x y : List Effect} (h1 : t.trace = s.trace ++ x)
    (h2 : u.trace = t.trace ++ y) : since s u = since s t ++ since t u := by
  rw [since_eq h1, since_eq h2]
  exact since_eq (by rw [h2, h1, List.append_assoc])

theorem since_self : since s s = [] := by
  simp [since]

theorem disable_since :
    since s (waveshare_disable s).2
      = if s.p.enabled then
          backlight_effects s.p.backlight FB_BLANK_POWERDOWN
            ++ delay_effects s.p.desc panel_delay.disable
        else [] := by
  cases h : s.p.enabled
  · simp [waveshare_disable, h, since_self]
  · simpa using since_eq (disable_trace s h)

theorem enable_since (h : s.p.enabled = false) :
    since s (waveshare_enable env s).2
      = init_effects ++ delay_effects s.p.desc panel_delay.enable
          ++ backlight_effects s.p.backlight FB_BLANK_UNBLANK :=
  since_eq (enable_trace env s h)

theorem writes_enable (h : s.p.enabled = false) :
    writes (since s (waveshare_enable env s).2) = init_table := by
  rw [enable_since env s h]
  simp [writes_append, writes_init_effects, writes_delay_effects, writes_backlight_effects]

theorem writes_disable : writes (since s (waveshare_disable s).2) = [] := by
  rw [disable_since]
  split
  · simp [writes_append, writes_delay_effects, writes_backlight_effects]
  · rfl

theorem remove_flags :
    (waveshare_remove s).2.p.enabled = false
      ∧ (waveshare_remove s).2.p.prepared = s.p.prepared := by
  unfold waveshare_remove waveshare_disable
  cases he : s.p.enabled <;> cases hd : s.p.ddc <;> cases hb : s.p.backlight <;>
    simp [State.emit, State.logLine, he, hd, hb]

theorem sleeps_append (a b : List Effect) : sleeps (a ++ b) = sleeps a ++ sleeps b := by
  simp [sleeps, List.filterMap_append]

theorem sleeps_init_effects : sleeps init_effects = [] := by
  decide

theorem sleeps_delay_effects (desc : Option panel_desc) (ms : panel_delay → Nat) :
    sleeps (delay_effects desc ms) = configured_delay desc ms := by
  unfold delay_effects configured_delay
  split
  · split <;> rfl
  · rfl

theorem sleeps_backlight_effects (bl : Option backlight_device) (v : Nat) :
    sleeps (backlight_effects bl v) = [] := by
  cases bl <;> rfl

theorem sleeps_gpio_effects (g : Bool) (v : Nat) : sleeps (gpio_effects g v) = [] := by
  cases g <;> rfl

theorem backlight_updates_append (a b : List Effect) :
    backlight_updates (a ++ b) = backlight_updates a ++ backlight_updates b := by
  simp [backlight_updates, List.filterMap_append]

theorem backlight_updates_init_effects : backlight_updates init_effects = [] := by
  decide

theorem backlight_updates_delay_effects (desc : Option panel_desc) (ms : panel_delay → Nat) :
    backlight_updates (delay_effects desc ms) = [] := by
  unfold delay_effects
  split
  · split <;> rfl
  · rfl

theorem disable_backlight (h : s.p.enabled = true) :
    (waveshare_disable s).2.p.backlight
      = s.p.backlight.map fun _ => { props_power := FB_BLANK_POWERDOWN } := by
  unfold waveshare_disable
  simp [h, State.logLine]

theorem enable_backlight (h : s.p.enabled = false) :
    (waveshare_enable env s).2.p.backlight
      = s.p.backlight.map fun _ => { props_power := FB_BLANK_UNBLANK } := by
  unfold waveshare_enable
  simp [h, State.logLine]

end lifecycle

/-! ## Frame lemmas for mode discovery -/

section modes
variable (env : Env) (h : ModeHelpers)

theorem added_eq {s t : State} {l : List drm_display_mode}
    (hl : t.connector.probed_modes = s.connector.probed_modes ++ l) : added s t = l := by
  simp [added, hl]

theorem fixed_timings_loop_ok (halloc : ∀ n, env.mode_alloc n = true)
    (ts : List display_timing) :
    ∀ (s : State) (num : Nat),
      fixed_timings_loop env h ts s num
        = ({ s with
             connector := { s.connector with
               probed_modes := s.connector.probed_modes ++ ts.map (timing_mode h) }
             n_alloc := s.n_alloc + ts.length }, num + ts.length) := by
  induction ts with
  | nil => intro s num; simp [fixed_timings_loop]
  | cons dt rest ih =>
    intro s num
    simp only [fixed_timings_loop, drm_mode_create, halloc, if_true]
    rw [ih]
    simp [drm_mode_probed_add, timing_mode, Nat.add_assoc, Nat.add_comm 1]

theorem fixed_modes_loop_ok (halloc : ∀ n, env.mode_alloc n = true)
    (ms : List drm_display_mode) :
    ∀ (s : State) (num : Nat),
      fixed_modes_loop env h ms s num
        = ({ s with
             connector := { s.connector with
               probed_modes := s.connector.probed_modes ++ ms.map (fixed_mode h) }
             n_alloc := s.n_alloc + ms.length }, num + ms.length) := by
  induction ms with
  | nil => intro s num; simp [fixed_modes_loop]
  | cons m rest ih =>
    intro s num
    simp only [fixed_modes_loop, drm_mode_duplicate, drm_mode_create, halloc, if_true]
    rw [ih]
    simp [drm_mode_probed_add, fixed_mode, Nat.add_assoc, Nat.add_comm 1]

theorem get_fixed_modes_ok (halloc : ∀ n, env.mode_alloc n = true) (s : State)
    (desc : panel_desc) (hd : s.p.desc = some desc) :
    (waveshare_get_fixed_modes env h s).1 = ((desc.num_timings + desc.num_modes : Nat) : Int)
      ∧ (waveshare_get_fixed_modes env h s).2.connector.probed_modes
          = s.connector.probed_modes
              ++ (desc.timings.map (timing_mode h) ++ desc.modes.map (fixed_mode h))
      ∧ (waveshare_get_fixed_modes env h s).2.p = s.p
      ∧ (waveshare_get_fixed_modes env h s).2.trace = s.trace := by
  unfold waveshare_get_fixed_modes
  simp only [hd, fixed_timings_loop_ok env h halloc, fixed_modes_loop_ok env h halloc]
  simp [panel_desc.num_timings, panel_desc.num_modes]

theorem native_mode_absent (hn : env.display_timings_node = false) (s : State) :
    (waveshare_of_get_native_mode env h s).1 = 0
      ∧ (waveshare_of_get_native_mode env h s).2.connector = s.connector
      ∧ (waveshare_of_get_native_mode env h s).2.p = s.p
      ∧ (waveshare_of_get_native_mode env h s).2.trace = s.trace := by
  simp [waveshare_of_get_native_mode, hn, State.logLine]

theorem timing_mode_not_preferred (dt : display_timing) :
    (timing_mode h dt).preferred = false := by
  simp [timing_mode, drm_mode_set_name, drm_display_mode_from_videomode, mode_zero,
    drm_display_mode.preferred]

theorem fixed_mode_preferred (m : drm_display_mode) :
    (fixed_mode h m).preferred = m.preferred := rfl

theorem get_modes_unfold (s : State) :
    waveshare_get_modes env h s
      = if s.p.ddc then
          match env.drm_get_edid with
          | some e =>
            let s1 := (drm_add_edid_modes
              { s with connector := { s.connector with edid_property := some e } } e).2
            let r := waveshare_get_fixed_modes env h s1
            let n := waveshare_of_get_native_mode env h r.2
            ((0 : Int) + (e.length : Int) + r.1 + n.1, n.2)
          | none =>
            let s1 := { s with connector := { s.connector with edid_property := none } }
            let r := waveshare_get_fixed_modes env h s1
            let n := waveshare_of_get_native_mode env h r.2
            ((0 : Int) + r.1 + n.1, n.2)
        else
          let r := waveshare_get_fixed_modes env h s
          let n := waveshare_of_get_native_mode env h r.2
          ((0 : Int) + r.1 + n.1, n.2) := by
  unfold waveshare_get_modes
  cases hd : s.p.ddc
  · simp
  · cases he : env.drm_get_edid <;> simp [drm_add_edid_modes]

theorem get_modes_fixed_only (halloc : ∀ n, env.mode_alloc n = true)
    (hn : env.display_timings_node = false) (s : State) (desc : panel_desc)
    (hd : s.p.desc = some desc) :
    ((0 : Int) + (waveshare_get_fixed_modes env h s).1
        + (waveshare_of_get_native_mode env h (waveshare_get_fixed_modes env h s).2).1
        = ((desc.num_timings + desc.num_modes : Nat) : Int))
      ∧ (waveshare_of_get_native_mode env h
          (waveshare_get_fixed_modes env h s).2).2.connector.probed_modes
          = s.connector.probed_modes
              ++ (desc.timings.map (timing_mode h) ++ desc.modes.map (fixed_mode h)) := by
  obtain ⟨h1, h2, _, _⟩ := get_fixed_modes_ok env h halloc s desc hd
  obtain ⟨h3, h4, _, _⟩ := native_mode_absent env h hn (waveshare_get_fixed_modes env h s).2
  rw [h3, h4, h1, h2]
  simp

theorem fixed_timings_loop_spec (ts : List display_timing) :
    ∀ (s : State) (num : Nat),
      (fixed_timings_loop env h ts s num).2
          = num + (created env (timing_mode h) s.n_alloc ts).length
        ∧ (fixed_timings_loop env h ts s num).1.connector.probed_modes
            = s.connector.probed_modes ++ created env (timing_mode h) s.n_alloc ts
        ∧ (fixed_timings_loop env h ts s num).1.connector.display_info
            = s.connector.display_info
        ∧ (fixed_timings_loop env h ts s num).1.n_alloc = s.n_alloc + ts.length
        ∧ (fixed_timings_loop env h ts s num).1.p = s.p
        ∧ (fixed_timings_loop env h ts s num).1.trace = s.trace := by
  induction ts with
  | nil => intro s num; simp [fixed_timings_loop, created]
  | cons dt rest ih =>
    intro s num
    simp only [fixed_timings_loop, drm_mode_create, created]
    cases ha : env.mode_alloc s.n_alloc
    · obtain ⟨h1, h2, h3, h4, h5, h6⟩ := ih
        (State.logLine { s with n_alloc := s.n_alloc + 1 }
          (LogLine.dev_err "failed to add mode %ux%u\n"
            [(dt.hactive.typ : Int), (dt.vactive.typ : Int)])) num
      simp only [Bool.false_eq_true, if_false]
      refine ⟨?_, ?_, ?_, ?_, ?_, ?_⟩
      · rw [h1]; simp [State.logLine]
      · rw [h2]; simp [State.logLine]
      · rw [h3]; simp [State.logLine]
      · rw [h4]; simp [State.logLine]; omega
      · rw [h5]; simp [State.logLine]
      · rw [h6]; simp [State.logLine]
    · obtain ⟨h1, h2, h3, h4, h5, h6⟩ := ih
        (drm_mode_probed_add { s with n_alloc := s.n_alloc + 1 }
          (drm_mode_set_name h
            (drm_display_mode_from_videomode h (videomode_from_timing dt) mode_zero)))
        (num + 1)
      simp only [if_true]
      refine ⟨?_, ?_, ?_, ?_, ?_, ?_⟩
      · rw [h1]; simp [drm_mode_probed_add]; omega
      · rw [h2]; simp [drm_mode_probed_add, timing_mode]
      · rw [h3]; simp [drm_mode_probed_add]
      · rw [h4]; simp [drm_mode_probed_add]; omega
      · rw [h5]; simp [drm_mode_probed_add]
      · rw [h6]; simp [drm_mode_probed_add]

theorem fixed_modes_loop_spec (ms : List drm_display_mode) :
    ∀ (s : State) (num : Nat),
      (fixed_modes_loop env h ms s num).2
          = num + (created env (fixed_mode h) s.n_alloc ms).length
        ∧ (fixed_modes_loop env h ms s num).1.connector.probed_modes
            = s.connector.probed_modes ++ created env (fixed_mode h) s.n_alloc ms
        ∧ (fixed_modes_loop env h ms s num).1.connector.display_info
            = s.connector.display_info
        ∧ (fixed_modes_loop env h ms s num).1.n_alloc = s.n_alloc + ms.length
        ∧ (fixed_modes_loop env h ms s num).1.p = s.p
        ∧ (fixed_modes_loop env h ms s num).1.trace = s.trace := by
  induction ms with
  | nil => intro s num; simp [fixed_modes_loop, created]
  | cons m rest ih =>
    intro s num
    simp only [fixed_modes_loop, drm_mode_duplicate, drm_mode_create, created]
    cases ha : env.mode_alloc s.n_alloc
    · obtain ⟨h1, h2, h3, h4, h5, h6⟩ := ih
        (State.logLine { s with n_alloc := s.n_alloc + 1 }
          (LogLine.dev_err "failed to add mode %ux%u@%u\n"
            [(m.hdisplay : Int), (m.vdisplay : Int), (m.vrefresh : Int)])) num
      simp only [Bool.false_eq_true, if_false]
      refine ⟨?_, ?_, ?_, ?_, ?_, ?_⟩
      · rw [h1]; simp [State.logLine]
      · rw [h2]; simp [State.logLine]
      · rw [h3]; simp [State.logLine]
      · rw [h4]; simp [State.logLine]; omega
      · rw [h5]; simp [State.logLine]
      · rw [h6]; simp [State.logLine]
    · obtain ⟨h1, h2, h3, h4, h5, h6⟩ := ih
        (drm_mode_probed_add { s with n_alloc := s.n_alloc + 1 } (drm_mode_set_name h m))
        (num + 1)
      simp only [if_true]
      refine ⟨?_, ?_, ?_, ?_, ?_, ?_⟩
      · rw [h1]; simp [drm_mode_probed_add]; omega
      · rw [h2]; simp [drm_mode_probed_add, fixed_mode]
      · rw [h3]; simp [drm_mode_probed_add]
      · rw [h4]; simp [drm_mode_probed_add]; omega
      · rw [h5]; simp [drm_mode_probed_add]
      · rw [h6]; simp [drm_mode_probed_add]

/-- The display info `waveshare_get_fixed_modes` leaves for a descriptor. -/
theorem get_fixed_modes_spec (s : State) (d : panel_desc) (hd : s.p.desc = some d) :
    (waveshare_get_fixed_modes env h s).1 = ((fixed_part env h s).length : Int)
      ∧ (waveshare_get_fixed_modes env h s).2.connector.probed_modes
          = s.connector.probed_modes ++ fixed_part env h s
      ∧ (waveshare_get_fixed_modes env h s).2.connector.display_info
          = { bpc := d.bpc, width_mm := d.size.width, height_mm := d.size.height,
              bus_formats := if d.bus_format ≠ 0 then [d.bus_format]
                else s.connector.display_info.bus_formats }
      ∧ (waveshare_get_fixed_modes env h s).2.n_alloc = s.n_alloc + fixed_entries s
      ∧ (waveshare_get_fixed_modes env h s).2.p = s.p
      ∧ (waveshare_get_fixed_modes env h s).2.trace = s.trace := by
  have ha := fixed_timings_loop_spec env h d.timings s 0
  rcases hr : fixed_timings_loop env h d.timings s 0 with ⟨s1, n1⟩
  rw [hr] at ha
  obtain ⟨a1, a2, a3, a4, a5, a6⟩ := ha
  have hb := fixed_modes_loop_spec env h d.modes s1 n1
  rcases hr2 : fixed_modes_loop env h d.modes s1 n1 with ⟨s2, n2⟩
  rw [hr2] at hb
  obtain ⟨b1, b2, b3, b4, b5, b6⟩ := hb
  simp only at a1 a2 a3 a4 a5 a6 b1 b2 b3 b4 b5 b6
  unfold waveshare_get_fixed_modes
  simp only [hd, hr, hr2, fixed_part, fixed_entries, panel_desc.num_timings,
    panel_desc.num_modes]
  refine ⟨?_, ?_, ?_, ?_, ?_, ?_⟩
  · rw [b1, a1, a4]; simp
  · rw [b2, a2, a4]; simp
  · split <;> simp_all [drm_display_info_set_bus_formats]
  · omega
  · rw [b5, a5]
  · rw [b6, a6]

theorem get_fixed_modes_none (s : State) (hd : s.p.desc = none) :
    waveshare_get_fixed_modes env h s = (0, s) := by
  unfold waveshare_get_fixed_modes
  simp [hd]

theorem of_get_native_mode_spec (s : State) :
    (waveshare_of_get_native_mode env h s).2.connector.probed_modes
        = s.connector.probed_modes
            ++ (if env.display_timings_node && env.mode_alloc s.n_alloc then
                  match env.of_get_videomode with
                  | some vm => [native_mode h vm]
                  | none => []
                else [])
      ∧ (waveshare_of_get_native_mode env h s).1
          = (((if env.display_timings_node && env.mode_alloc s.n_alloc then
                  match env.of_get_videomode with
                  | some vm => [native_mode h vm]
                  | none => []
                else []) : List drm_display_mode).length : Int)
      ∧ (waveshare_of_get_native_mode env h s).2.connector.display_info
          = s.connector.display_info
      ∧ (waveshare_of_get_native_mode env h s).2.p = s.p
      ∧ (waveshare_of_get_native_mode env h s).2.trace = s.trace := by
  unfold waveshare_of_get_native_mode
  cases hn : env.display_timings_node
  · simp [State.logLine]
  · cases ha : env.mode_alloc s.n_alloc
    · simp [drm_mode_create, ha]
    · cases hv : env.of_get_videomode
      · simp [drm_mode_create, ha, State.logLine]
      · simp [drm_mode_create, ha, drm_mode_probed_add, native_mode]

theorem get_fixed_modes_frame (s : State) :
    (waveshare_get_fixed_modes env h s).1 = ((fixed_part env h s).length : Int)
      ∧ (waveshare_get_fixed_modes env h s).2.connector.probed_modes
          = s.connector.probed_modes ++ fixed_part env h s
      ∧ (waveshare_get_fixed_modes env h s).2.n_alloc = s.n_alloc + fixed_entries s
      ∧ (waveshare_get_fixed_modes env h s).2.p = s.p
      ∧ (waveshare_get_fixed_modes env h s).2.trace = s.trace := by
  cases hd : s.p.desc with
  | none =>
    rw [get_fixed_modes_none env h s hd]
    simp [fixed_part, fixed_entries, hd]
  | some d =>
    obtain ⟨h1, h2, _, h4, h5, h6⟩ := get_fixed_modes_spec env h s d hd
    exact ⟨h1, h2, h4, h5, h6⟩

theorem fixed_then_native (s : State) :
    (waveshare_of_get_native_mode env h
        (waveshare_get_fixed_modes env h s).2).2.connector.probed_modes
        = s.connector.probed_modes ++ (fixed_part env h s ++ native_part env h s)
      ∧ (waveshare_get_fixed_modes env h s).1
          + (waveshare_of_get_native_mode env h (waveshare_get_fixed_modes env h s).2).1
          = (((fixed_part env h s).length + (native_part env h s).length : Nat) : Int)
      ∧ (waveshare_of_get_native_mode env h
          (waveshare_get_fixed_modes env h s).2).2.connector.display_info
          = (waveshare_get_fixed_modes env h s).2.connector.display_info
      ∧ (waveshare_of_get_native_mode env h (waveshare_get_fixed_modes env h s).2).2.p = s.p
      ∧ (waveshare_of_get_native_mode env h (waveshare_get_fixed_modes env h s).2).2.trace
          = s.trace := by
  obtain ⟨f1, f2, f3, f4, f5⟩ := get_fixed_modes_frame env h s
  obtain ⟨n1, n2, n3, n4, n5⟩ :=
    of_get_native_mode_spec env h (waveshare_get_fixed_modes env h s).2
  rw [f3] at n1 n2
  refine ⟨?_, ?_, n3, by rw [n4, f4], by rw [n5, f5]⟩
  · rw [n1, f2, List.append_assoc]; rfl
  · rw [n2, f1]
    simp only [native_part]
    push_cast
    rfl

theorem get_modes_spec (s : State) :
    (waveshare_get_modes env h s).2.connector.probed_modes
        = s.connector.probed_modes
            ++ (edid_part env s ++ fixed_part env h s ++ native_part env h s)
      ∧ (waveshare_get_modes env h s).1
          = (((edid_part env s).length + (fixed_part env h s).length
              + (native_part env h s).length : Nat) : Int)
      ∧ (waveshare_get_modes env h s).2.p = s.p
      ∧ (waveshare_get_modes env h s).2.trace = s.trace := by
  rw [get_modes_unfold]
  cases hddc : s.p.ddc
  · obtain ⟨h1, h2, _, h4, h5⟩ := fixed_then_native env h s
    simp only [Bool.false_eq_true, if_false, edid_part, hddc]
    refine ⟨?_, ?_, h4, h5⟩
    · rw [h1]; simp
    · rw [Int.zero_add, h2]; simp
  · cases he : env.drm_get_edid with
    | none =>
      obtain ⟨h1, h2, _, h4, h5⟩ := fixed_then_native env h
        { s with connector := { s.connector with edid_property := none } }
      simp only [if_true, edid_part, hddc, he]
      refine ⟨?_, ?_, h4, h5⟩
      · rw [h1]; simp; rfl
      · rw [Int.zero_add, h2]; simp; rfl
    | some e =>
      obtain ⟨h1, h2, _, h4, h5⟩ := fixed_then_native env h
        (drm_add_edid_modes
          { s with connector := { s.connector with edid_property := some e } } e).2
      simp only [if_true, edid_part, hddc, he]
      refine ⟨?_, ?_, h4, h5⟩
      · rw [h1]; simp [drm_add_edid_modes]; rfl
      · rw [Int.zero_add, Int.add_assoc, h2]; simp [drm_add_edid_modes]
        rw [Int.add_assoc]; rfl

theorem created_congr {α : Type} (env1 env2 : Env) (f : α → drm_display_mode)
    (hm : env1.mode_alloc = env2.mode_alloc) (l : List α) :
    ∀ n0, created env1 f n0 l = created env2 f n0 l := by
  induction l with
  | nil => intro n0; rfl
  | cons x xs ih => intro n0; simp only [created, hm, ih]

theorem native_mode_preferred (vm : videomode) : (native_mode h vm).preferred = true := by
  simp [native_mode, drm_mode_set_name, drm_display_mode_from_videomode, mode_zero,
    drm_display_mode.preferred, DRM_MODE_TYPE_PREFERRED]

end modes

/-! ## Frame lemmas for the timing buffer -/

theorem get_timings_loop_spec (src : List display_timing) :
    ∀ (k i : Nat) (buf : List display_timing) (reads : List Nat),
      i + k ≤ src.length → i + k ≤ buf.length →
      ∃ buf', get_timings_loop src k i (buf, reads) = some (buf', reads ++ List.range' i k)
        ∧ buf'.length = buf.length
        ∧ ∀ j, buf'[j]? = if i ≤ j ∧ j < i + k then src[j]? else buf[j]? := by
  intro k
  induction k with
  | zero =>
    intro i buf reads _ _
    refine ⟨buf, by simp [get_timings_loop], rfl, ?_⟩
    intro j
    have : ¬ (i ≤ j ∧ j < i + 0) := by omega
    rw [if_neg this]
  | succ k ih =>
    intro i buf reads hsrc hbuf
    have hi : i < src.length := by omega
    have hib : i < buf.length := by omega
    obtain ⟨buf', h1, h2, h3⟩ := ih (i + 1) (buf.set i src[i]) (reads ++ [i])
      (by omega) (by rw [List.length_set]; omega)
    refine ⟨buf', ?_, ?_, ?_⟩
    · simp only [get_timings_loop, List.getElem?_eq_getElem hi, hib, if_true]
      rw [h1, List.range'_succ]
      simp
    · rw [h2, List.length_set]
    · intro j
      rw [h3, List.getElem?_set]
      by_cases hj : i = j
      · subst hj
        have c1 : ¬ (i + 1 ≤ i ∧ i < i + 1 + k) := by omega
        have c2 : i ≤ i ∧ i < i + (k + 1) := by omega
        simp [c1, c2, hib, List.getElem?_eq_getElem hi]
      · by_cases hc : i + 1 ≤ j ∧ j < i + 1 + k
        · have c2 : i ≤ j ∧ j < i + (k + 1) := by omega
          simp [hc, c2]
        · have c2 : ¬ (i ≤ j ∧ j < i + (k + 1)) := by omega
          simp [hc, c2, hj]

/-! ## The lifecycle state machine -/

set_option maxRecDepth 8000

/-- C1, counterexample: the lifecycle invariant does not hold for every sequence
of calls. On a freshly probed panel a single `enable` call sets `enabled`
while `prepared` stays false; and after `prepare`, `enable` the call
`unprepare` clears `prepared` while `enabled` stays set. -/
theorem invariant_broken_by_unordered_calls :
    (run env_ok (fresh (some waveshare_bridge_desc) none false true) [Call.enable]).p.enabled
        = true
      ∧ (run env_ok (fresh (some waveshare_bridge_desc) none false true)
          [Call.enable]).p.prepared = false
      ∧ ¬ invariant (run env_ok (fresh (some waveshare_bridge_desc) none false true)
          [Call.enable])
      ∧ ¬ invariant (run env_ok (fresh (some waveshare_bridge_desc) none false true)
          [Call.prepare, Call.enable, Call.unprepare]) := by
  decide

/-- C1, amended: for every sequence of lifecycle calls applied to a freshly
probed panel in which `enable` is only called while `prepared` is set and
`unprepare` only while `enabled` is clear, and for every outcome of the
collaborators, `enabled` implies `prepared` after every call of the sequence. -/
theorem invariant_of_ordered_calls (env : Env) (s : State) (cs : List Call)
    (_hp : s.p.prepared = false) (he : s.p.enabled = false)
    (ho : ordered env s cs = true) :
    ∀ k, invariant (run env s (cs.take k)) :=
  run_invariant env cs s (by simp [invariant, he]) ho

/-- C1, witness: a full power cycle with a rejected command write, on a panel
with an enable GPIO and a backlight. -/
theorem invariant_of_ordered_calls_witness :
    (fresh (some waveshare_bridge_desc) (some ⟨0⟩) false true).p.prepared = false
      ∧ (fresh (some waveshare_bridge_desc) (some ⟨0⟩) false true).p.enabled = false
      ∧ ordered env_fail7 (fresh (some waveshare_bridge_desc) (some ⟨0⟩) false true)
          [Call.prepare, Call.enable, Call.disable, Call.enable, Call.disable,
           Call.unprepare, Call.unprepare] = true
      ∧ ∀ k, invariant (run env_fail7 (fresh (some waveshare_bridge_desc) (some ⟨0⟩) false true)
          (List.take k [Call.prepare, Call.enable, Call.disable, Call.enable, Call.disable,
           Call.unprepare, Call.unprepare])) :=
  ⟨rfl, rfl, rfl,
   invariant_of_ordered_calls env_fail7 _ _ rfl rfl rfl⟩

/-- C2: `prepare` on an unprepared panel returns an error exactly when enabling
the supply returns a negative value. In that case it returns that value, the
panel object (so `prepared` and `enabled`) and the connector are unchanged
and the only collaborator call made is the supply enable: no enable-signal
write and no sleep; one error line goes to the kernel log. Otherwise it
returns 0 and `prepared` is set. -/
theorem prepare_error_iff_supply_fails (env : Env) (s : State)
    (h : s.p.prepared = false) :
    ((waveshare_prepare env s).1 < 0 ↔ env.regulator_enable s.n_regulator_enable < 0)
      ∧ ((waveshare_prepare env s).1 ≠ 0 ↔ env.regulator_enable s.n_regulator_enable < 0)
      ∧ (env.regulator_enable s.n_regulator_enable < 0 →
          (waveshare_prepare env s).1 = env.regulator_enable s.n_regulator_enable
            ∧ (waveshare_prepare env s).2.p = s.p
            ∧ (waveshare_prepare env s).2.p.prepared = false
            ∧ (waveshare_prepare env s).2.p.enabled = s.p.enabled
            ∧ since s (waveshare_prepare env s).2 = [Effect.regulator_enable]
            ∧ (waveshare_prepare env s).2.connector = s.connector
            ∧ (waveshare_prepare env s).2.log
                = s.log ++ [LogLine.dev_err "failed to enable supply: %d\n"
                    [env.regulator_enable s.n_regulator_enable]])
      ∧ (¬ env.regulator_enable s.n_regulator_enable < 0 →
          (waveshare_prepare env s).1 = 0
            ∧ (waveshare_prepare env s).2.p.prepared = true) := by
  by_cases herr : env.regulator_enable s.n_regulator_enable < 0
  · obtain ⟨h1, h2, h3, h4, h5⟩ := prepare_fail env s h herr
    refine ⟨?_, ?_, ?_, ?_⟩
    · rw [h1]
    · rw [h1]; simp [herr]; omega
    · intro _
      exact ⟨h1, h2, by rw [h2]; exact h, by rw [h2], since_eq h3, h4, h5⟩
    · intro hn; exact absurd herr hn
  · obtain ⟨h1, h2⟩ := prepare_ok env s h herr
    refine ⟨?_, ?_, ?_, ?_⟩
    · rw [h1]; simp [herr]
    · rw [h1]; simp [herr]
    · intro hn; exact absurd hn herr
    · intro _; exact ⟨h1, h2⟩

/-- C2, witness: a fresh panel whose supply enable fails with -19. -/
theorem prepare_error_iff_supply_fails_witness :
    (fresh (some waveshare_bridge_desc) none false true).p.prepared = false
      ∧ (waveshare_prepare env_nosupply
          (fresh (some waveshare_bridge_desc) none false true)).1 = -19
      ∧ since (fresh (some waveshare_bridge_desc) none false true)
          (waveshare_prepare env_nosupply
            (fresh (some waveshare_bridge_desc) none false true)).2
          = [Effect.regulator_enable] :=
  ⟨rfl,
   ((prepare_error_iff_supply_fails env_nosupply
      (fresh (some waveshare_bridge_desc) none false true) rfl).2.2.1 (by decide)).1,
   ((prepare_error_iff_supply_fails env_nosupply
      (fresh (some waveshare_bridge_desc) none false true) rfl).2.2.1 (by decide)).2.2.2.2.1⟩

/-- C3: in the trace of a successful `prepare` from an unprepared panel with an
enable GPIO, the supply enable comes first and the enable signal is driven
active right after it; in the trace of `unprepare` from a prepared panel with
an enable GPIO, the enable signal is driven inactive first and the supply is
disabled right after it. Each of the two calls occurs exactly once in its
trace. -/
theorem supply_and_enable_signal_order (env : Env) (s t : State)
    (hs : s.p.prepared = false) (hsg : s.p.enable_gpio = true)
    (hok : ¬ env.regulator_enable s.n_regulator_enable < 0)
    (ht : t.p.prepared = true) (htg : t.p.enable_gpio = true) :
    (since s (waveshare_prepare env s).2
        = Effect.regulator_enable :: Effect.gpiod_direction_output 1
            :: delay_effects s.p.desc panel_delay.prepare
      ∧ (since s (waveshare_prepare env s).2).indexOf Effect.regulator_enable
          < (since s (waveshare_prepare env s).2).indexOf (Effect.gpiod_direction_output 1)
      ∧ (since s (waveshare_prepare env s).2).count Effect.regulator_enable = 1
      ∧ (since s (waveshare_prepare env s).2).count (Effect.gpiod_direction_output 1) = 1)
    ∧ (since t (waveshare_unprepare t).2
        = Effect.gpiod_direction_output 0 :: Effect.regulator_disable
            :: delay_effects t.p.desc panel_delay.unprepare
      ∧ (since t (waveshare_unprepare t).2).indexOf (Effect.gpiod_direction_output 0)
          < (since t (waveshare_unprepare t).2).indexOf Effect.regulator_disable
      ∧ (since t (waveshare_unprepare t).2).count (Effect.gpiod_direction_output 0) = 1
      ∧ (since t (waveshare_unprepare t).2).count Effect.regulator_disable = 1) := by
  have h1 : since s (waveshare_prepare env s).2
      = Effect.regulator_enable :: Effect.gpiod_direction_output 1
          :: delay_effects s.p.desc panel_delay.prepare := by
    rw [since_eq (prepare_trace_ok env s hs hok)]
    simp [gpio_effects, hsg]
  have h2 : since t (waveshare_unprepare t).2
      = Effect.gpiod_direction_output 0 :: Effect.regulator_disable
          :: delay_effects t.p.desc panel_delay.unprepare := by
    rw [since_eq (unprepare_trace t ht)]
    simp [gpio_effects, htg]
  rw [h1, h2]
  refine ⟨⟨rfl, ?_, ?_, ?_⟩, ⟨rfl, ?_, ?_, ?_⟩⟩
  · simp [List.indexOf_cons]
  · simp [List.count_cons, count_delay_effects]
  · simp [List.count_cons, count_delay_effects]
  · simp [List.indexOf_cons]
  · simp [List.count_cons, count_delay_effects]
  · simp [List.count_cons, count_delay_effects]

/-- C3, witness: the compiled-in panel with an enable GPIO, fresh for `prepare`
and after a successful `prepare` for `unprepare`. -/
theorem supply_and_enable_signal_order_witness :
    since (fresh (some waveshare_bridge_desc) none false true)
        (waveshare_prepare env_ok (fresh (some waveshare_bridge_desc) none false true)).2
      = [Effect.regulator_enable, Effect.gpiod_direction_output 1]
    ∧ since (waveshare_prepare env_ok (fresh (some waveshare_bridge_desc) none false true)).2
        (waveshare_unprepare
          (waveshare_prepare env_ok (fresh (some waveshare_bridge_desc) none false true)).2).2
      = [Effect.gpiod_direction_output 0, Effect.regulator_disable] :=
  ⟨(supply_and_enable_signal_order env_ok
      (fresh (some waveshare_bridge_desc) none false true)
      (waveshare_prepare env_ok (fresh (some waveshare_bridge_desc) none false true)).2
      rfl rfl (by decide) rfl rfl).1.1,
   (supply_and_enable_signal_order env_ok
      (fresh (some waveshare_bridge_desc) none false true)
      (waveshare_prepare env_ok (fresh (some waveshare_bridge_desc) none false true)).2
      rfl rfl (by decide) rfl rfl).2.1⟩

/-! ## The init sequence -/

/-- C4: whatever the command channel answers, the init sequence makes exactly
sixteen writes of six bytes each, equal in order and content to the fixed
table, and then the settle wait `usleep_range(10, 20)`; the four timing
writes and the latch write are entries 9 to 13, before system control and the
two start writes, which are the last three. -/
theorem dsi_init_writes_fixed_table (env : Env) (s : State) :
    since s (waveshare_dsi_init env s).2
        = [Effect.mipi_dsi_generic_write [0x10, 0x02, 0x03, 0x00, 0x00, 0x00] 6,
           Effect.mipi_dsi_generic_write [0x64, 0x01, 0x0c, 0x00, 0x00, 0x00] 6,
           Effect.mipi_dsi_generic_write [0x68, 0x01, 0x0c, 0x00, 0x00, 0x00] 6,
           Effect.mipi_dsi_generic_write [0x44, 0x01, 0x00, 0x00, 0x00, 0x00] 6,
           Effect.mipi_dsi_generic_write [0x48, 0x01, 0x00, 0x00, 0x00, 0x00] 6,
           Effect.mipi_dsi_generic_write [0x14, 0x01, 0x15, 0x00, 0x00, 0x00] 6,
           Effect.mipi_dsi_generic_write [0x50, 0x04, 0x60, 0x00, 0x00, 0x00] 6,
           Effect.mipi_dsi_generic_write [0x20, 0x04, 0x52, 0x01, 0x10, 0x00] 6,
           Effect.mipi_dsi_generic_write [0x24, 0x04, 0x14, 0x00, 0x1a, 0x00] 6,
           Effect.mipi_dsi_generic_write [0x28, 0x04, 0x20, 0x03, 0x69, 0x00] 6,
           Effect.mipi_dsi_generic_write [0x2c, 0x04, 0x02, 0x00, 0x15, 0x00] 6,
           Effect.mipi_dsi_generic_write [0x30, 0x04, 0xe0, 0x01, 0x07, 0x00] 6,
           Effect.mipi_dsi_generic_write [0x34, 0x04, 0x01, 0x00, 0x00, 0x00] 6,
           Effect.mipi_dsi_generic_write [0x64, 0x04, 0x0f, 0x04, 0x00, 0x00] 6,
           Effect.mipi_dsi_generic_write [0x04, 0x01, 0x01, 0x00, 0x00, 0x00] 6,
           Effect.mipi_dsi_generic_write [0x04, 0x02, 0x01, 0x00, 0x00, 0x00] 6,
           Effect.usleep_range 10 20]
      ∧ writes (since s (waveshare_dsi_init env s).2) = init_table
      ∧ (writes (since s (waveshare_dsi_init env s).2)).length = 16
      ∧ (∀ d ∈ writes (since s (waveshare_dsi_init env s).2), d.length = 6)
      ∧ ((writes (since s (waveshare_dsi_init env s).2)).take 13).drop 8
          = [[0x24, 0x04, 0x14, 0x00, 0x1a, 0x00], [0x28, 0x04, 0x20, 0x03, 0x69, 0x00],
             [0x2c, 0x04, 0x02, 0x00, 0x15, 0x00], [0x30, 0x04, 0xe0, 0x01, 0x07, 0x00],
             [0x34, 0x04, 0x01, 0x00, 0x00, 0x00]]
      ∧ (writes (since s (waveshare_dsi_init env s).2)).drop 13
          = [[0x64, 0x04, 0x0f, 0x04, 0x00, 0x00], [0x04, 0x01, 0x01, 0x00, 0x00, 0x00],
             [0x04, 0x02, 0x01, 0x00, 0x00, 0x00]]
      ∧ (since s (waveshare_dsi_init env s).2).getLast? = some (Effect.usleep_range 10 20)
      ∧ (waveshare_dsi_init env s).2.n_write = s.n_write + 16 := by
  rw [since_eq (dsi_init_trace env s)]
  refine ⟨rfl, by decide, by decide, by decide, by decide, by decide, by decide, ?_⟩
  exact dsi_init_n_write env s

/-- C5: for every pattern of rejected command writes the init sequence makes the
same collaborator calls as the run in which no write fails, the sixteen
writes of the table in order, and returns 0; so `enable` on a prepared panel
returns 0, sets `enabled`, keeps `prepared` and has issued the sixteen
writes. -/
theorem dsi_init_ignores_write_failures (env : Env) (s : State)
    (hp : s.p.prepared = true) (he : s.p.enabled = false) :
    since s (waveshare_dsi_init env s).2 = since s (waveshare_dsi_init env_ok s).2
      ∧ writes (since s (waveshare_dsi_init env s).2) = init_table
      ∧ (waveshare_dsi_init env s).1 = 0
      ∧ (waveshare_enable env s).1 = 0
      ∧ (waveshare_enable env s).2.p.enabled = true
      ∧ (waveshare_enable env s).2.p.prepared = true
      ∧ writes (since s (waveshare_enable env s).2) = init_table
      ∧ since s (waveshare_enable env s).2 = since s (waveshare_enable env_ok s).2 := by
  refine ⟨?_, ?_, rfl, enable_ret env s, enable_enabled env s, ?_, writes_enable env s he, ?_⟩
  · rw [since_eq (dsi_init_trace env s), since_eq (dsi_init_trace env_ok s)]
  · rw [since_eq (dsi_init_trace env s)]; exact writes_init_effects
  · rw [enable_prepared]; exact hp
  · rw [enable_since env s he, enable_since env_ok s he]

/-- C5, witness: the prepared compiled-in panel on a channel that rejects the
seventh write. -/
theorem dsi_init_ignores_write_failures_witness :
    panel0_prepared.p.prepared = true ∧ panel0_prepared.p.enabled = false
      ∧ env_fail7.mipi_dsi_generic_write 6 < 0
      ∧ writes (since panel0_prepared (waveshare_dsi_init env_fail7 panel0_prepared).2)
          = init_table
      ∧ (waveshare_enable env_fail7 panel0_prepared).1 = 0
      ∧ (waveshare_enable env_fail7 panel0_prepared).2.p.enabled = true :=
  ⟨rfl, rfl, by decide,
   (dsi_init_ignores_write_failures env_fail7 panel0_prepared rfl rfl).2.1,
   (dsi_init_ignores_write_failures env_fail7 panel0_prepared rfl rfl).2.2.2.1,
   (dsi_init_ignores_write_failures env_fail7 panel0_prepared rfl rfl).2.2.2.2.1⟩

/-! ## Redundant and out-of-order calls -/

/-- C6: a lifecycle call whose target is already satisfied returns 0 and leaves
the whole state (panel object, trace, log, connector) as it was: `prepare`
with `prepared` set, `enable` with `enabled` set, `disable` with `enabled`
clear, `unprepare` with `prepared` clear. So `prepare` twice with a
succeeding supply enables the supply exactly once. -/
theorem lifecycle_calls_idempotent (env : Env) (s : State) :
    (s.p.prepared = true → waveshare_prepare env s = (0, s))
      ∧ (s.p.enabled = true → waveshare_enable env s = (0, s))
      ∧ (s.p.enabled = false → waveshare_disable s = (0, s))
      ∧ (s.p.prepared = false → waveshare_unprepare s = (0, s))
      ∧ (s.p.prepared = false → ¬ env.regulator_enable s.n_regulator_enable < 0 →
          waveshare_prepare env (waveshare_prepare env s).2
              = (0, (waveshare_prepare env s).2)
            ∧ (since s (waveshare_prepare env (waveshare_prepare env s).2).2).count
                Effect.regulator_enable = 1) := by
  refine ⟨?_, ?_, ?_, ?_, ?_⟩
  · intro h; simp [waveshare_prepare, h]
  · intro h; simp [waveshare_enable, h]
  · intro h; simp [waveshare_disable, h]
  · intro h; simp [waveshare_unprepare, h]
  · intro h hok
    have h2 : waveshare_prepare env (waveshare_prepare env s).2
        = (0, (waveshare_prepare env s).2) := by
      have := (prepare_ok env s h hok).2
      generalize (waveshare_prepare env s).2 = t at this ⊢
      simp [waveshare_prepare, this]
    refine ⟨h2, ?_⟩
    rw [h2, since_eq (prepare_trace_ok env s h hok)]
    cases hg : s.p.enable_gpio <;>
      simp [gpio_effects, List.count_cons, count_delay_effects]

/-- C6, witness: on the compiled-in panel, `disable` and `unprepare` right after
probe and a second `prepare` and `enable` change nothing and return 0. -/
theorem lifecycle_calls_idempotent_witness :
    waveshare_disable panel0 = (0, panel0)
      ∧ waveshare_unprepare panel0 = (0, panel0)
      ∧ waveshare_prepare env_ok panel0_prepared = (0, panel0_prepared)
      ∧ waveshare_enable env_ok panel0_enabled = (0, panel0_enabled)
      ∧ (since panel0 (waveshare_prepare env_ok (waveshare_prepare env_ok panel0).2).2).count
          Effect.regulator_enable = 1 :=
  ⟨(lifecycle_calls_idempotent env_ok panel0).2.2.1 rfl,
   (lifecycle_calls_idempotent env_ok panel0).2.2.2.1 rfl,
   (lifecycle_calls_idempotent env_ok panel0_prepared).1 rfl,
   (lifecycle_calls_idempotent env_ok panel0_enabled).2.1 rfl,
   ((lifecycle_calls_idempotent env_ok panel0).2.2.2.2 rfl (by decide)).2⟩

/-- C7, counterexample: `enable` on the unprepared compiled-in panel is not a
no-op, it issues the sixteen command writes and sets `enabled`; `unprepare`
on the enabled panel is not a no-op, it disables the supply and clears
`prepared`. -/
theorem out_of_order_calls_are_not_noops :
    panel0.p.prepared = false ∧ panel0.p.enabled = false
      ∧ (waveshare_enable env_ok panel0).2.p.enabled = true
      ∧ writes (since panel0 (waveshare_enable env_ok panel0).2) = init_table
      ∧ panel0_enabled.p.prepared = true ∧ panel0_enabled.p.enabled = true
      ∧ (waveshare_unprepare panel0_enabled).2.p.prepared = false
      ∧ since panel0_enabled (waveshare_unprepare panel0_enabled).2
          = [Effect.gpiod_direction_output 0, Effect.regulator_disable] := by
  decide

/-- C7, amended: `enable` on an unprepared panel and `unprepare` on an enabled
panel are not errors, both return 0, but they run the transition as from a
valid state. `enable` issues the init sequence, the enable delay and the
backlight update and sets `enabled` while `prepared` stays clear;
`unprepare` drives the enable signal inactive if there is one, disables the
supply, sleeps the unprepare delay and clears `prepared` while `enabled`
stays set. -/
theorem out_of_order_calls_succeed (env : Env) (s t : State)
    (hs1 : s.p.prepared = false) (hs2 : s.p.enabled = false)
    (ht1 : t.p.prepared = true) (ht2 : t.p.enabled = true) :
    ((waveshare_enable env s).1 = 0
        ∧ (waveshare_enable env s).2.p.enabled = true
        ∧ (waveshare_enable env s).2.p.prepared = false
        ∧ writes (since s (waveshare_enable env s).2) = init_table
        ∧ since s (waveshare_enable env s).2
            = init_effects ++ delay_effects s.p.desc panel_delay.enable
                ++ backlight_effects s.p.backlight FB_BLANK_UNBLANK)
      ∧ ((waveshare_unprepare t).1 = 0
        ∧ (waveshare_unprepare t).2.p.prepared = false
        ∧ (waveshare_unprepare t).2.p.enabled = true
        ∧ since t (waveshare_unprepare t).2
            = gpio_effects t.p.enable_gpio 0 ++ [Effect.regulator_disable]
                ++ delay_effects t.p.desc panel_delay.unprepare) := by
  refine ⟨⟨enable_ret env s, enable_enabled env s, ?_, writes_enable env s hs2,
    enable_since env s hs2⟩, ⟨unprepare_ret t, unprepare_prepared t, ?_,
    since_eq (unprepare_trace t ht1)⟩⟩
  · rw [enable_prepared]; exact hs1
  · rw [unprepare_enabled]; exact ht2

/-- C7, witness: the compiled-in panel, right after probe and once enabled. -/
theorem out_of_order_calls_succeed_witness :
    (waveshare_enable env_ok panel0).1 = 0
      ∧ (waveshare_enable env_ok panel0).2.p.prepared = false
      ∧ (waveshare_unprepare panel0_enabled).1 = 0
      ∧ (waveshare_unprepare panel0_enabled).2.p.enabled = true :=
  ⟨(out_of_order_calls_succeed env_ok panel0 panel0_enabled rfl rfl rfl rfl).1.1,
   (out_of_order_calls_succeed env_ok panel0 panel0_enabled rfl rfl rfl rfl).1.2.2.1,
   (out_of_order_calls_succeed env_ok panel0 panel0_enabled rfl rfl rfl rfl).2.1,
   (out_of_order_calls_succeed env_ok panel0 panel0_enabled rfl rfl rfl rfl).2.2.2.1⟩

/-! ## Teardown -/

/-- C8, counterexample: teardown does not end in the unprepared state. After
`waveshare_remove` or `waveshare_shutdown` on the prepared or the enabled
compiled-in panel `prepared` is still set, and the trace of the removal
path has neither a supply nor an enable-signal call. -/
theorem teardown_leaves_prepared :
    panel0_prepared.p.prepared = true
      ∧ (waveshare_remove panel0_prepared).2.p.prepared = true
      ∧ (waveshare_shutdown panel0_prepared).p.prepared = true
      ∧ panel0_enabled.p.prepared = true ∧ panel0_enabled.p.enabled = true
      ∧ (waveshare_remove panel0_enabled).2.p.prepared = true
      ∧ (waveshare_shutdown panel0_enabled).p.prepared = true
      ∧ since panel0_enabled (waveshare_remove panel0_enabled).2
          = [Effect.drm_panel_detach, Effect.drm_panel_remove,
             Effect.backlight_update_status FB_BLANK_POWERDOWN,
             Effect.put_device_backlight] := by
  decide

/-- C8, amended: teardown ends with the panel disabled. For every panel state,
`waveshare_remove` returns 0 and after `waveshare_remove` or
`waveshare_shutdown` `enabled` is false; a panel that was unprepared before
teardown is unprepared after it. -/
theorem teardown_disables (s : State) :
    (waveshare_remove s).1 = 0
      ∧ (waveshare_remove s).2.p.enabled = false
      ∧ (waveshare_shutdown s).p.enabled = false
      ∧ (s.p.prepared = false →
          (waveshare_remove s).2.p.prepared = false
            ∧ (waveshare_shutdown s).p.prepared = false) := by
  refine ⟨rfl, (remove_flags s).1, disable_enabled s, fun hp => ⟨?_, ?_⟩⟩
  · rw [(remove_flags s).2]; exact hp
  · unfold waveshare_shutdown; rw [disable_prepared]; exact hp

/-- C8, witness: teardown of the compiled-in panel right after probe and after a
full `prepare`, `enable`. -/
theorem teardown_disables_witness :
    panel0.p.prepared = false
      ∧ (waveshare_remove panel0).2.p.prepared = false
      ∧ (waveshare_remove panel0_enabled).2.p.enabled = false
      ∧ (waveshare_shutdown panel0_enabled).p.enabled = false :=
  ⟨rfl, ((teardown_disables panel0).2.2.2 rfl).1,
   (teardown_disables panel0_enabled).2.1, (teardown_disables panel0_enabled).2.2.1⟩

/-! ## Re-enable -/

/-- C9: on an enabled panel, `disable` followed by `enable` issues the full
sixteen-write table, all of it by the second call; and every `enable` call
made with `enabled` clear issues the sixteen writes, in the table's order
and bytes, in whatever state the panel is and after any sequence of
lifecycle calls. -/
theorem enable_reissues_table (env : Env) (s : State) (h : s.p.enabled = true) :
    (waveshare_disable s).2.p.enabled = false
      ∧ writes (since s (waveshare_disable s).2) = []
      ∧ writes (since (waveshare_disable s).2
          (waveshare_enable env (waveshare_disable s).2).2) = init_table
      ∧ writes (since s (waveshare_enable env (waveshare_disable s).2).2) = init_table
      ∧ (∀ t : State, t.p.enabled = false →
          writes (since t (waveshare_enable env t).2) = init_table)
      ∧ (∀ (s0 : State) (cs : List Call), (run env s0 cs).p.enabled = false →
          writes (since (run env s0 cs) (waveshare_enable env (run env s0 cs)).2)
            = init_table) := by
  have hd := disable_enabled s
  refine ⟨hd, writes_disable s, writes_enable env _ hd, ?_,
    fun t ht => writes_enable env t ht, fun s0 cs ht => writes_enable env _ ht⟩
  rw [since_trans (disable_trace s h) (enable_trace env _ hd), writes_append,
    writes_disable, writes_enable env _ hd]
  rfl

/-- C9, witness: the enabled compiled-in panel, disabled and enabled again on a
channel that rejects the seventh write. -/
theorem enable_reissues_table_witness :
    panel0_enabled.p.enabled = true
      ∧ writes (since panel0_enabled
          (waveshare_enable env_fail7 (waveshare_disable panel0_enabled).2).2) = init_table :=
  ⟨rfl, (enable_reissues_table env_fail7 panel0_enabled rfl).2.2.2.1⟩

/-! ## Mode discovery -/

/-- C10: with no identification data (no DDC handle, or no EDID block read), no
`display-timings` node, a descriptor attached and every mode allocation
succeeding, `get_modes` appends to the probed list exactly the descriptor's
timings, each converted from its typical values, followed by the
descriptor's modes, each duplicated, in declared order, and returns
`num_timings + num_modes`. A converted timing is not preferred and a
duplicated mode is preferred only if its descriptor entry is. For the
compiled-in descriptor the result is 1 and the one mode added is 800x480,
not preferred. -/
theorem get_modes_fixed_source (env : Env) (h : ModeHelpers) (s : State) (desc : panel_desc)
    (hedid : s.p.ddc = false ∨ env.drm_get_edid = none)
    (hnative : env.display_timings_node = false)
    (hdesc : s.p.desc = some desc)
    (halloc : ∀ n, env.mode_alloc n = true) :
    (waveshare_get_modes env h s).2.connector.probed_modes
        = s.connector.probed_modes
            ++ (desc.timings.map (timing_mode h) ++ desc.modes.map (fixed_mode h))
      ∧ added s (waveshare_get_modes env h s).2
          = desc.timings.map (timing_mode h) ++ desc.modes.map (fixed_mode h)
      ∧ (waveshare_get_modes env h s).1 = ((desc.num_timings + desc.num_modes : Nat) : Int)
      ∧ (∀ dt ∈ desc.timings,
          (timing_mode h dt).preferred = false
            ∧ (timing_mode h dt).hdisplay = dt.hactive.typ
            ∧ (timing_mode h dt).hsync_start = dt.hactive.typ + dt.hfront_porch.typ
            ∧ (timing_mode h dt).hsync_end
                = dt.hactive.typ + dt.hfront_porch.typ + dt.hsync_len.typ
            ∧ (timing_mode h dt).htotal
                = dt.hactive.typ + dt.hfront_porch.typ + dt.hsync_len.typ + dt.hback_porch.typ
            ∧ (timing_mode h dt).vdisplay = dt.vactive.typ
            ∧ (timing_mode h dt).vsync_start = dt.vactive.typ + dt.vfront_porch.typ
            ∧ (timing_mode h dt).vsync_end
                = dt.vactive.typ + dt.vfront_porch.typ + dt.vsync_len.typ
            ∧ (timing_mode h dt).vtotal
                = dt.vactive.typ + dt.vfront_porch.typ + dt.vsync_len.typ + dt.vback_porch.typ
            ∧ (timing_mode h dt).clock = dt.pixelclock.typ / 1000)
      ∧ (∀ m ∈ desc.modes,
          (fixed_mode h m).preferred = m.preferred
            ∧ fixed_mode h m = { m with name := h.mode_name m })
      ∧ (desc = waveshare_bridge_desc →
          (waveshare_get_modes env h s).1 = 1
            ∧ added s (waveshare_get_modes env h s).2 = [fixed_mode h waveshare_mode]
            ∧ (fixed_mode h waveshare_mode).hdisplay = 800
            ∧ (fixed_mode h waveshare_mode).vdisplay = 480
            ∧ (fixed_mode h waveshare_mode).preferred = false) := by
  have key : (waveshare_get_modes env h s).1 = ((desc.num_timings + desc.num_modes : Nat) : Int)
      ∧ (waveshare_get_modes env h s).2.connector.probed_modes
        = s.connector.probed_modes
            ++ (desc.timings.map (timing_mode h) ++ desc.modes.map (fixed_mode h)) := by
    rw [get_modes_unfold]
    cases hddc : s.p.ddc
    · simpa using get_modes_fixed_only env h halloc hnative s desc hdesc
    · have he : env.drm_get_edid = none := by
        rcases hedid with h1 | h1
        · rw [hddc] at h1; cases h1
        · exact h1
      simpa [he] using get_modes_fixed_only env h halloc hnative
        { s with connector := { s.connector with edid_property := none } } desc hdesc
  refine ⟨key.2, added_eq key.2, key.1, ?_, ?_, ?_⟩
  · intro dt _
    exact ⟨timing_mode_not_preferred h dt, rfl, rfl, rfl, rfl, rfl, rfl, rfl, rfl, rfl⟩
  · intro m _
    exact ⟨rfl, rfl⟩
  · intro hw
    subst hw
    refine ⟨?_, ?_, rfl, rfl, ?_⟩
    · rw [key.1]; rfl
    · rw [added_eq key.2]; rfl
    · rw [fixed_mode_preferred]; decide

/-- C10, witness: the compiled-in panel right after probe, with no DDC bus and
no native-mode node: one mode is added, 800x480, not preferred. -/
theorem get_modes_fixed_source_witness :
    (panel0.p.ddc = false ∨ env_ok.drm_get_edid = none)
      ∧ env_ok.display_timings_node = false
      ∧ panel0.p.desc = some waveshare_bridge_desc
      ∧ (∀ n, env_ok.mode_alloc n = true)
      ∧ (waveshare_get_modes env_ok helpers0 panel0).1 = 1
      ∧ added panel0 (waveshare_get_modes env_ok helpers0 panel0).2
          = [fixed_mode helpers0 waveshare_mode] :=
  ⟨Or.inl rfl, rfl, rfl, fun _ => rfl,
   ((get_modes_fixed_source env_ok helpers0 panel0 waveshare_bridge_desc (Or.inl rfl) rfl rfl
      (fun _ => rfl)).2.2.2.2.2 rfl).1,
   ((get_modes_fixed_source env_ok helpers0 panel0 waveshare_bridge_desc (Or.inl rfl) rfl rfl
      (fun _ => rfl)).2.2.2.2.2 rfl).2.1⟩

/-- C11: when the device node has a `display-timings` child, the native mode
parses and the allocation made for it succeeds, `get_modes` adds exactly one
mode from it: the modes added are those of the same call without the native
block followed by that one mode, so it is the last one added, whatever the
number of EDID, timing and fixed modes before it. The mode has the preferred
flag set and the returned count is one more than without the native block. -/
theorem native_mode_added_last (env : Env) (h : ModeHelpers) (s : State) (vm : videomode)
    (hnode : env.display_timings_node = true)
    (hparse : env.of_get_videomode = some vm)
    (halloc : env.mode_alloc (s.n_alloc + fixed_entries s) = true) :
    added s (waveshare_get_modes env h s).2
        = edid_part env s ++ fixed_part env h s ++ [native_mode h vm]
      ∧ (added s (waveshare_get_modes env h s).2).getLast? = some (native_mode h vm)
      ∧ (native_mode h vm).preferred = true
      ∧ (waveshare_get_modes env h s).1
          = (((edid_part env s).length + (fixed_part env h s).length + 1 : Nat) : Int)
      ∧ added s (waveshare_get_modes env h s).2
          = added s (waveshare_get_modes { env with display_timings_node := false } h s).2
              ++ [native_mode h vm]
      ∧ (waveshare_get_modes env h s).1
          = (waveshare_get_modes { env with display_timings_node := false } h s).1 + 1 := by
  obtain ⟨h1, h2, _, _⟩ := get_modes_spec env h s
  obtain ⟨g1, g2, _, _⟩ := get_modes_spec { env with display_timings_node := false } h s
  have hn : native_part env h s = [native_mode h vm] := by
    simp [native_part, hnode, halloc, hparse]
  have hn0 : native_part { env with display_timings_node := false } h s = [] := by
    simp [native_part]
  have he : edid_part { env with display_timings_node := false } s = edid_part env s := rfl
  have hf : fixed_part { env with display_timings_node := false } h s = fixed_part env h s := by
    unfold fixed_part
    cases s.p.desc with
    | none => rfl
    | some d =>
      simp only
      rw [created_congr { env with display_timings_node := false } env _ rfl,
        created_congr { env with display_timings_node := false } env _ rfl]
  rw [hn] at h1 h2
  rw [hn0, he, hf] at g1 g2
  have a1 := added_eq h1
  have b1 := added_eq g1
  refine ⟨a1, ?_, native_mode_preferred h vm, ?_, ?_, ?_⟩
  · rw [a1]; simp
  · rw [h2]; simp
  · rw [a1, b1]; simp
  · rw [h2, g2]; simp

/-- C11, witness: the panel `panel1` with an identification block of one mode, a
descriptor of two timings and one mode, one failed allocation and a native
mode: the native mode is the last of the four modes added. -/
theorem native_mode_added_last_witness :
    env_native.display_timings_node = true
      ∧ env_native.mode_alloc (panel1.n_alloc + fixed_entries panel1) = true
      ∧ (waveshare_get_modes env_native helpers0 panel1).1 = 4
      ∧ (added panel1 (waveshare_get_modes env_native helpers0 panel1).2).getLast?
          = some (native_mode helpers0
              (videomode_from_timing (timing_of 27448000 800 70 26 20 480 7 21 2))) :=
  ⟨rfl, rfl,
   (native_mode_added_last env_native helpers0 panel1 _ rfl rfl rfl).2.2.2.1,
   (native_mode_added_last env_native helpers0 panel1 _ rfl rfl rfl).2.1⟩

/-- C12: for every answer of the collaborators `get_modes` returns the number of
modes it added to the probed list: those of the identification block, plus
one per descriptor timing and mode whose allocation succeeded, plus one if
the native mode was added. An entry whose allocation fails is left out and
not counted and the entries after it are still processed. With no
descriptor, no identification data and no native block the result is 0. -/
theorem get_modes_returns_number_added (env : Env) (h : ModeHelpers) (s : State) :
    (waveshare_get_modes env h s).2.connector.probed_modes
        = s.connector.probed_modes ++ added s (waveshare_get_modes env h s).2
      ∧ (waveshare_get_modes env h s).1
          = ((added s (waveshare_get_modes env h s).2).length : Int)
      ∧ added s (waveshare_get_modes env h s).2
          = edid_part env s ++ fixed_part env h s ++ native_part env h s
      ∧ (waveshare_get_modes env h s).1
          = (((edid_part env s).length + (fixed_part env h s).length
              + (native_part env h s).length : Nat) : Int)
      ∧ (∀ (f : display_timing → drm_display_mode) (n0 : Nat) (x : display_timing)
          (xs : List display_timing),
          created env f n0 (x :: xs)
            = (if env.mode_alloc n0 then [f x] else []) ++ created env f (n0 + 1) xs)
      ∧ (s.p.desc = none → (s.p.ddc = false ∨ env.drm_get_edid = none) →
          env.display_timings_node = false →
          (waveshare_get_modes env h s).1 = 0
            ∧ added s (waveshare_get_modes env h s).2 = []) := by
  obtain ⟨h1, h2, _, _⟩ := get_modes_spec env h s
  have a1 := added_eq h1
  refine ⟨by rw [a1]; exact h1, ?_, a1, h2, fun _ _ _ _ => rfl, ?_⟩
  · rw [a1, h2]; simp [Nat.add_assoc]
  · intro hd hedid hnode
    have e1 : edid_part env s = [] := by
      rcases hedid with hh | hh <;> simp [edid_part, hh]
    have e2 : fixed_part env h s = [] := by simp [fixed_part, hd]
    have e3 : native_part env h s = [] := by simp [native_part, hnode]
    rw [a1, h2, e1, e2, e3]
    simp

/-- C12, witness: on `panel1` the second allocation fails; the identification
block gives one mode, the first timing and the descriptor mode are created,
the second timing is skipped, the native mode is added: the result is 4 and
four modes were added. With no descriptor, no DDC bus and no native block
the result is 0. -/
theorem get_modes_returns_number_added_witness :
    env_native.mode_alloc 1 = false
      ∧ (waveshare_get_modes env_native helpers0 panel1).1 = 4
      ∧ (added panel1 (waveshare_get_modes env_native helpers0 panel1).2).length = 4
      ∧ (waveshare_get_modes env_ok helpers0 (fresh none none false false)).1 = 0 :=
  ⟨rfl,
   (get_modes_returns_number_added env_native helpers0 panel1).2.2.2.1,
   by rw [(get_modes_returns_number_added env_native helpers0 panel1).2.2.1]; rfl,
   ((get_modes_returns_number_added env_ok helpers0 (fresh none none false false)).2.2.2.2.2
      rfl (Or.inl rfl) rfl).1⟩

/-- C13: with a descriptor attached, after the fixed source and after the whole
of `get_modes`, whatever the collaborators answer, the connector's display
info has the descriptor's `bpc`, `size.width` and `size.height`, and its
bus-format list is the single descriptor bus format when that is non-zero
and is left as it was when it is zero. With no descriptor the fixed source
returns 0 and changes nothing, so it adds no mode and every display-info
field keeps its value. -/
theorem display_info_from_descriptor (env : Env) (h : ModeHelpers) (s t : State)
    (d : panel_desc) (hs : s.p.desc = some d) (ht : t.p.desc = none) :
    ((waveshare_get_fixed_modes env h s).2.connector.display_info.bpc = d.bpc
        ∧ (waveshare_get_fixed_modes env h s).2.connector.display_info.width_mm = d.size.width
        ∧ (waveshare_get_fixed_modes env h s).2.connector.display_info.height_mm
            = d.size.height
        ∧ (d.bus_format ≠ 0 →
            (waveshare_get_fixed_modes env h s).2.connector.display_info.bus_formats
              = [d.bus_format])
        ∧ (d.bus_format = 0 →
            (waveshare_get_fixed_modes env h s).2.connector.display_info.bus_formats
              = s.connector.display_info.bus_formats))
      ∧ ((waveshare_get_modes env h s).2.connector.display_info.bpc = d.bpc
        ∧ (waveshare_get_modes env h s).2.connector.display_info.width_mm = d.size.width
        ∧ (waveshare_get_modes env h s).2.connector.display_info.height_mm = d.size.height
        ∧ (d.bus_format ≠ 0 →
            (waveshare_get_modes env h s).2.connector.display_info.bus_formats
              = [d.bus_format])
        ∧ (d.bus_format = 0 →
            (waveshare_get_modes env h s).2.connector.display_info.bus_formats
              = s.connector.display_info.bus_formats))
      ∧ (waveshare_get_fixed_modes env h t = (0, t)
        ∧ added t (waveshare_get_fixed_modes env h t).2 = []
        ∧ (waveshare_get_fixed_modes env h t).2.connector.display_info
            = t.connector.display_info) := by
  have key : ∀ u : State, u.p.desc = some d →
      (waveshare_get_fixed_modes env h u).2.connector.display_info.bpc = d.bpc
        ∧ (waveshare_get_fixed_modes env h u).2.connector.display_info.width_mm = d.size.width
        ∧ (waveshare_get_fixed_modes env h u).2.connector.display_info.height_mm
            = d.size.height
        ∧ (d.bus_format ≠ 0 →
            (waveshare_get_fixed_modes env h u).2.connector.display_info.bus_formats
              = [d.bus_format])
        ∧ (d.bus_format = 0 →
            (waveshare_get_fixed_modes env h u).2.connector.display_info.bus_formats
              = u.connector.display_info.bus_formats) := by
    intro u hu
    obtain ⟨_, _, h3, _⟩ := get_fixed_modes_spec env h u d hu
    rw [h3]
    refine ⟨rfl, rfl, rfl, ?_, ?_⟩
    · intro hb; simp [hb]
    · intro hb; simp [hb]
  refine ⟨key s hs, ?_, ?_⟩
  · rw [get_modes_unfold]
    cases hddc : s.p.ddc
    · simp only [Bool.false_eq_true, if_false]
      rw [(fixed_then_native env h s).2.2.1]
      exact key s hs
    · cases he : env.drm_get_edid with
      | none =>
        simp only [if_true]
        rw [(fixed_then_native env h _).2.2.1]
        exact key _ hs
      | some e =>
        simp only [if_true]
        rw [(fixed_then_native env h _).2.2.1]
        exact key _ hs
  · have hn := get_fixed_modes_none env h t ht
    refine ⟨hn, ?_, ?_⟩
    · rw [hn]; simp [added]
    · rw [hn]

/-- C13, witness: `panel1`, whose descriptor has a bus format, and a panel
without descriptor. -/
theorem display_info_from_descriptor_witness :
    panel1.p.desc = some desc1
      ∧ (fresh none none false false).p.desc = none
      ∧ (waveshare_get_modes env_native helpers0 panel1).2.connector.display_info.bpc = 6
      ∧ (waveshare_get_modes env_native helpers0 panel1).2.connector.display_info.bus_formats
          = [0x1009]
      ∧ waveshare_get_fixed_modes env_native helpers0 (fresh none none false false)
          = (0, fresh none none false false) :=
  ⟨rfl, rfl,
   (display_info_from_descriptor env_native helpers0 panel1 (fresh none none false false)
      desc1 rfl rfl).2.1.1,
   (display_info_from_descriptor env_native helpers0 panel1 (fresh none none false false)
      desc1 rfl rfl).2.1.2.2.2.1 (by decide),
   (display_info_from_descriptor env_native helpers0 panel1 (fresh none none false false)
      desc1 rfl rfl).2.2.1⟩

/-! ## Delays and backlight -/

/-- C14: each lifecycle transition that runs sleeps exactly once, for its own
configured delay, when a descriptor is attached and that delay is not zero,
and has no millisecond sleep in its trace otherwise: `prepare` from
`prepared` clear with a succeeding supply, `enable` from `enabled` clear,
`disable` from `enabled` set and `unprepare` from `prepared` set. -/
theorem transition_sleeps_configured_delay (env : Env) (s : State) :
    (s.p.prepared = false → ¬ env.regulator_enable s.n_regulator_enable < 0 →
        sleeps (since s (waveshare_prepare env s).2)
          = configured_delay s.p.desc panel_delay.prepare)
      ∧ (s.p.enabled = false →
        sleeps (since s (waveshare_enable env s).2)
          = configured_delay s.p.desc panel_delay.enable)
      ∧ (s.p.enabled = true →
        sleeps (since s (waveshare_disable s).2)
          = configured_delay s.p.desc panel_delay.disable)
      ∧ (s.p.prepared = true →
        sleeps (since s (waveshare_unprepare s).2)
          = configured_delay s.p.desc panel_delay.unprepare)
      ∧ (∀ (d : panel_desc) (ms : panel_delay → Nat), ms d.delay ≠ 0 →
          configured_delay (some d) ms = [ms d.delay])
      ∧ (∀ (d : panel_desc) (ms : panel_delay → Nat), ms d.delay = 0 →
          configured_delay (some d) ms = [])
      ∧ (∀ ms : panel_delay → Nat, configured_delay none ms = []) := by
  refine ⟨?_, ?_, ?_, ?_, ?_, ?_, fun _ => rfl⟩
  · intro hp hok
    rw [since_eq (prepare_trace_ok env s hp hok)]
    simp only [sleeps_append, sleeps_gpio_effects, sleeps_delay_effects]
    rfl
  · intro he
    rw [enable_since env s he]
    simp [sleeps_append, sleeps_init_effects, sleeps_backlight_effects, sleeps_delay_effects]
  · intro he
    rw [since_eq (disable_trace s he)]
    simp [sleeps_append, sleeps_backlight_effects, sleeps_delay_effects]
  · intro hp
    rw [since_eq (unprepare_trace s hp)]
    simp only [sleeps_append, sleeps_gpio_effects, sleeps_delay_effects]
    rfl
  · intro d ms hms; simp [configured_delay, hms]
  · intro d ms hms; simp [configured_delay, hms]

/-- C14, witness: on `panel1`, whose delays are 10, 20, 30 and 40 ms, every
transition sleeps once for its own delay; on the compiled-in panel, whose
delays are zero, `prepare` does not sleep. -/
theorem transition_sleeps_configured_delay_witness :
    sleeps (since panel1 (waveshare_prepare env_ok panel1).2) = [10]
      ∧ sleeps (since panel1_prepared (waveshare_enable env_ok panel1_prepared).2) = [20]
      ∧ sleeps (since panel1_enabled (waveshare_disable panel1_enabled).2) = [30]
      ∧ sleeps (since panel1_prepared (waveshare_unprepare panel1_prepared).2) = [40]
      ∧ sleeps (since panel0 (waveshare_prepare env_ok panel0).2) = [] :=
  ⟨(transition_sleeps_configured_delay env_ok panel1).1 rfl (by decide),
   (transition_sleeps_configured_delay env_ok panel1_prepared).2.1 rfl,
   (transition_sleeps_configured_delay env_ok panel1_enabled).2.2.1 rfl,
   (transition_sleeps_configured_delay env_ok panel1_prepared).2.2.2.1 rfl,
   (transition_sleeps_configured_delay env_ok panel0).1 rfl (by decide)⟩

/-- C15: with a backlight attached, the trace of `disable` from an enabled panel
starts with the backlight update to "off", before the disable delay, and the
call clears `enabled` and leaves `prepared` as it was; the trace of `enable`
ends with the backlight update to "on", after the sixteen command writes,
the settle wait and the enable delay. With no backlight attached neither
trace has a backlight update. -/
theorem backlight_order (env : Env) (s t : State) (bs bt : backlight_device)
    (hs : s.p.enabled = true) (hsb : s.p.backlight = some bs)
    (ht : t.p.enabled = false) (htb : t.p.backlight = some bt) :
    (since s (waveshare_disable s).2
        = Effect.backlight_update_status FB_BLANK_POWERDOWN
            :: delay_effects s.p.desc panel_delay.disable
      ∧ (since s (waveshare_disable s).2).head?
          = some (Effect.backlight_update_status FB_BLANK_POWERDOWN)
      ∧ backlight_updates (since s (waveshare_disable s).2) = [FB_BLANK_POWERDOWN]
      ∧ (waveshare_disable s).2.p.backlight = some { props_power := FB_BLANK_POWERDOWN }
      ∧ (waveshare_disable s).2.p.enabled = false
      ∧ (waveshare_disable s).2.p.prepared = s.p.prepared)
    ∧ (since t (waveshare_enable env t).2
        = init_effects ++ delay_effects t.p.desc panel_delay.enable
            ++ [Effect.backlight_update_status FB_BLANK_UNBLANK]
      ∧ (since t (waveshare_enable env t).2).getLast?
          = some (Effect.backlight_update_status FB_BLANK_UNBLANK)
      ∧ backlight_updates (since t (waveshare_enable env t).2) = [FB_BLANK_UNBLANK]
      ∧ writes (init_effects ++ delay_effects t.p.desc panel_delay.enable) = init_table
      ∧ (waveshare_enable env t).2.p.backlight = some { props_power := FB_BLANK_UNBLANK })
    ∧ (∀ u : State, u.p.backlight = none →
        backlight_updates (since u (waveshare_disable u).2) = []
          ∧ backlight_updates (since u (waveshare_enable env u).2) = []) := by
  have h1 : since s (waveshare_disable s).2
      = Effect.backlight_update_status FB_BLANK_POWERDOWN
          :: delay_effects s.p.desc panel_delay.disable := by
    rw [since_eq (disable_trace s hs), hsb]; rfl
  have h2 : since t (waveshare_enable env t).2
      = init_effects ++ delay_effects t.p.desc panel_delay.enable
          ++ [Effect.backlight_update_status FB_BLANK_UNBLANK] := by
    rw [enable_since env t ht, htb]; rfl
  refine ⟨⟨h1, ?_, ?_, ?_, disable_enabled s, disable_prepared s⟩,
    ⟨h2, ?_, ?_, ?_, ?_⟩, ?_⟩
  · rw [h1]; rfl
  · rw [h1]
    have := backlight_updates_delay_effects s.p.desc panel_delay.disable
    simp only [backlight_updates] at this ⊢
    simp [List.filterMap_cons, this]
  · rw [disable_backlight s hs, hsb]; rfl
  · rw [h2]; simp
  · rw [h2]
    simp [backlight_updates_append, backlight_updates_init_effects,
      backlight_updates_delay_effects]
    rfl
  · simp [writes_append, writes_init_effects, writes_delay_effects]
  · rw [enable_backlight env t ht, htb]; rfl
  · intro u hu
    constructor
    · rw [disable_since]
      split
      · rw [hu]
        simp [backlight_updates_append, backlight_updates_delay_effects, backlight_effects]
      · rfl
    · cases he : u.p.enabled
      · rw [enable_since env u he, hu]
        simp [backlight_updates_append, backlight_updates_init_effects,
          backlight_updates_delay_effects, backlight_effects]
      · have : waveshare_enable env u = (0, u) := by simp [waveshare_enable, he]
        rw [this, since_self]; rfl

/-- C15, witness: `panel1`, which has a backlight and delays of 20 and 30 ms. -/
theorem backlight_order_witness :
    panel1_enabled.p.enabled = true ∧ panel1_prepared.p.enabled = false
      ∧ since panel1_enabled (waveshare_disable panel1_enabled).2
          = [Effect.backlight_update_status FB_BLANK_POWERDOWN, Effect.msleep 30]
      ∧ (since panel1_prepared (waveshare_enable env_ok panel1_prepared).2).getLast?
          = some (Effect.backlight_update_status FB_BLANK_UNBLANK) :=
  ⟨rfl, rfl,
   (backlight_order env_ok panel1_enabled panel1_prepared ⟨0⟩ ⟨0⟩ rfl rfl rfl rfl).1.1,
   (backlight_order env_ok panel1_enabled panel1_prepared ⟨0⟩ ⟨0⟩ rfl rfl rfl rfl).2.1.2.1⟩

/-! ## Init sequence geometry and timings -/

/-- C16, counterexample: the high word of the bridge command `28 04`, the
horizontal front porch, is 105, while the compiled-in mode has
`hsync_start - hdisplay = 70`. -/
theorem bridge_front_porch_differs :
    (find_reg (writes (since panel0 (waveshare_dsi_init env_ok panel0).2)) 0x28 0x04).map
        payload_hi = some 105
      ∧ waveshare_mode.hsync_start - waveshare_mode.hdisplay = 70
      ∧ (find_reg (writes (since panel0 (waveshare_dsi_init env_ok panel0).2)) 0x28 0x04).map
          payload_hi ≠ some (waveshare_mode.hsync_start - waveshare_mode.hdisplay) := by
  decide

/-- C16, amended: reading the four payload bytes of each timing write of the
init sequence as two little-endian 16-bit words, command `24 04` gives the
sync width `hsync_end - hsync_start` and the back porch `htotal - hsync_end`
of `waveshare_mode`, the low word of command `28 04` gives `hdisplay`,
command `2c 04` gives `vsync_end - vsync_start` and `vtotal - vsync_end`,
and command `30 04` gives `vdisplay` and `vsync_start - vdisplay`. -/
theorem bridge_geometry_matches_mode (env : Env) (s : State) :
    (find_reg (writes (since s (waveshare_dsi_init env s).2)) 0x24 0x04).map payload_lo
        = some (waveshare_mode.hsync_end - waveshare_mode.hsync_start)
      ∧ (find_reg (writes (since s (waveshare_dsi_init env s).2)) 0x24 0x04).map payload_hi
          = some (waveshare_mode.htotal - waveshare_mode.hsync_end)
      ∧ (find_reg (writes (since s (waveshare_dsi_init env s).2)) 0x28 0x04).map payload_lo
          = some waveshare_mode.hdisplay
      ∧ (find_reg (writes (since s (waveshare_dsi_init env s).2)) 0x2c 0x04).map payload_lo
          = some (waveshare_mode.vsync_end - waveshare_mode.vsync_start)
      ∧ (find_reg (writes (since s (waveshare_dsi_init env s).2)) 0x2c 0x04).map payload_hi
          = some (waveshare_mode.vtotal - waveshare_mode.vsync_end)
      ∧ (find_reg (writes (since s (waveshare_dsi_init env s).2)) 0x30 0x04).map payload_lo
          = some waveshare_mode.vdisplay
      ∧ (find_reg (writes (since s (waveshare_dsi_init env s).2)) 0x30 0x04).map payload_hi
          = some (waveshare_mode.vsync_start - waveshare_mode.vdisplay) := by
  rw [since_eq (dsi_init_trace env s), writes_init_effects]
  decide

/-- C17: with no descriptor `get_timings` returns 0, leaves the buffer as it is
and reads nothing. With a descriptor it returns the descriptor's
`num_timings` whatever `n` is; with a null buffer nothing is copied; with a
buffer that holds the first `min n num_timings` entries it copies exactly
the first `min n num_timings` descriptor timings to the start of the buffer
in declared order, leaves every later entry and the length unchanged, and
reads the descriptor at the indices below `min n num_timings` only, all of
them below `num_timings`. -/
theorem get_timings_copies_first_entries (s : State) (n : Nat) :
    (s.p.desc = none → ∀ buf, waveshare_get_timings s n buf = some (0, buf, []))
      ∧ (∀ d : panel_desc, s.p.desc = some d →
          waveshare_get_timings s n none = some ((d.num_timings : Int), none, [])
            ∧ ∀ b : List display_timing, min n d.num_timings ≤ b.length →
                ∃ b', waveshare_get_timings s n (some b)
                    = some ((d.num_timings : Int), some b', List.range (min n d.num_timings))
                  ∧ b'.length = b.length
                  ∧ (∀ j, j < min n d.num_timings → b'[j]? = d.timings[j]?)
                  ∧ (∀ j, min n d.num_timings ≤ j → b'[j]? = b[j]?)
                  ∧ b' = d.timings.take (min n d.num_timings) ++ b.drop (min n d.num_timings)
                  ∧ (∀ i ∈ List.range (min n d.num_timings), i < d.num_timings)) := by
  constructor
  · intro hd buf
    simp [waveshare_get_timings, hd]
  · intro d hd
    constructor
    · simp [waveshare_get_timings, hd]
    · intro b hb
      have hm : (if d.num_timings < n then d.num_timings else n) = min n d.num_timings := by
        split <;> omega
      have hle : min n d.num_timings ≤ d.timings.length := by
        simp only [panel_desc.num_timings]; omega
      obtain ⟨b', h1, h2, h3⟩ := get_timings_loop_spec d.timings (min n d.num_timings) 0 b []
        (by omega) (by omega)
      have hlo : ∀ j, j < min n d.num_timings → b'[j]? = d.timings[j]? := by
        intro j hj
        rw [h3, if_pos ⟨Nat.zero_le _, by omega⟩]
      have hhi : ∀ j, min n d.num_timings ≤ j → b'[j]? = b[j]? := by
        intro j hj
        rw [h3, if_neg (by omega)]
      refine ⟨b', ?_, h2, hlo, hhi, ?_, ?_⟩
      · simp only [waveshare_get_timings, hd, hm, h1]
        simp [List.range_eq_range']
      · apply List.ext_getElem?
        intro j
        by_cases hj : j < min n d.num_timings
        · rw [hlo j hj, List.getElem?_append_left (by simp; omega), List.getElem?_take_of_lt hj]
        · have hj2 : min n d.num_timings ≤ j := by omega
          rw [hhi j hj2, List.getElem?_append_right (by simp; omega)]
          simp only [List.length_take, List.getElem?_drop]
          congr 1
          omega
      · intro i hi
        have := List.mem_range.1 hi
        simp only [panel_desc.num_timings] at this ⊢
        omega

/-- C17, witness: `panel1` has two timings. A request for one timing into a
buffer of three copies the first and returns 2; a request for five copies
both and leaves the third entry; a null buffer and a panel without
descriptor copy nothing. -/
theorem get_timings_copies_first_entries_witness :
    waveshare_get_timings panel1 1
        (some [timing_of 1 1 1 1 1 1 1 1 1, timing_of 2 2 2 2 2 2 2 2 2,
               timing_of 3 3 3 3 3 3 3 3 3])
        = some (2, some [timing_of 27448000 800 70 26 20 480 7 21 2,
                         timing_of 2 2 2 2 2 2 2 2 2, timing_of 3 3 3 3 3 3 3 3 3], [0])
      ∧ waveshare_get_timings panel1 5 none = some (2, none, [])
      ∧ waveshare_get_timings (fresh none none false false) 5
          (some [timing_of 1 1 1 1 1 1 1 1 1]) = some (0, some [timing_of 1 1 1 1 1 1 1 1 1], []) := by
  refine ⟨?_, ((get_timings_copies_first_entries panel1 5).2 desc1 rfl).1,
    (get_timings_copies_first_entries (fresh none none false false) 5).1 rfl _⟩
  obtain ⟨b', h1, _, _, _, h5, _⟩ := ((get_timings_copies_first_entries panel1 1).2 desc1 rfl).2
    [timing_of 1 1 1 1 1 1 1 1 1, timing_of 2 2 2 2 2 2 2 2 2, timing_of 3 3 3 3 3 3 3 3 3]
    (by decide)
  rw [h1, h5]
  rfl

end Waveshare
